import Mathlib

/-!
# Verification of the TTN CayenneLPP decoder

A shallow embedding of `src/decoder_cayenneLPP_extreme.js` together with
theorems settling the specification claims about it.

Modelling conventions:

* JavaScript numbers are modelled as exact rationals (`ℚ`).  Every value the
  decoder manipulates is either an integer in 32-bit range or the quotient of
  such an integer by a small power of ten, so the rational model captures the
  intended arithmetic exactly; IEEE-754 rounding of the final division is
  abstracted away.
* JavaScript bitwise operators work on 32-bit two's-complement integers.  The
  decoder composes values with `(value << 8) | bytes[i + byteIndex]`; since the
  shifted value has zero low byte and array elements are bytes (`< 256`), the
  bitwise-or is addition.  We embed the shift/or step arithmetically with an
  explicit wrap modulo `2^32` and signed reinterpretation (`toInt32`), the
  single-bit test `value & (1 << k)` as a bit extraction on the unsigned
  32-bit pattern, and `1 << k` with JavaScript's shift-count mask `k % 32`
  (so `1 << 32 = 1`, which is what the source actually computes for
  4-byte fields).
* Reading a JavaScript array out of range yields `undefined`; `undefined`
  converts to `0` in bitwise arithmetic and to the string `"undefined"` in
  string concatenation.  We model byte reads with `List.getD _ _ 0` and the
  possibly-absent channel byte with `Option Nat`.
* A JavaScript object with string keys is modelled as an association list in
  insertion order, with assignment updating an existing key in place
  (`objInsert`).  The `errors` property that the source stores on the same
  object as the decoded fields is kept as a separate field of `DataObj`; the
  decoded keys always contain an underscore preceded by a fixed sensor word,
  so they never collide with the `errors` property.
* The source's `for` loop is embedded as a fuel-indexed iteration `walk`,
  with fuel `bytes.length`; the termination theorem for claim C9 proves that
  this much fuel always suffices and that extra fuel does not change the
  result, so the embedding computes exactly the loop's limit.
-/

namespace TTNDecoder

/-- A decoded JavaScript value: a scalar number or an `{x, y, z}` triple. -/
inductive JsValue where
  | num (q : ℚ)
  | vec3 (x y z : ℚ)
deriving DecidableEq

def toUint32 (n : Int) : Nat := (n % 4294967296).toNat

def toInt32 (n : Int) : Int :=
  let m := n % 4294967296
  if m < 2147483648 then m else m - 4294967296

def jsComposeStep (v : Int) (b : Nat) : Int :=
  toInt32 ((toUint32 v * 256 % 4294967296 + b : Nat) : Int)

def jsBitSet (v : Int) (k : Nat) : Bool :=
  toUint32 v / 2 ^ (k % 32) % 2 = 1

def jsShlOne (k : Nat) : Int :=
  toInt32 ((2 ^ (k % 32) % 4294967296 : Nat) : Int)

structure DecodedField where
  value : ℚ
  index : Nat
deriving DecidableEq

/-- The source's inner `for (let byteIndex = byteLength - 1; byteIndex >= 0;
byteIndex--)` loop, generic in the step function: `byteLength` counts the
iterations still to run, so the first step reads the most significant byte
`bytes[i + byteLength - 1]` and the last reads `bytes[i]`. -/
def composeLoopGen (step : Int → Nat → Int) (bytes : List Nat) (i : Nat) :
    Nat → Int → Int
  | 0, value => value
  | byteIndex + 1, value =>
      composeLoopGen step bytes i byteIndex (step value (bytes.getD (i + byteIndex) 0))

/-- The composition loop of `decodeValue`, with its `(value << 8) | byte`
step. -/
def composeLoop (bytes : List Nat) (i : Nat) (byteLength : Nat) (value : Int) :
    Int :=
  composeLoopGen jsComposeStep bytes i byteLength value

def decodeValue (bytes : List Nat) (i : Nat) (isSigned : Bool) (precision : ℚ)
    (byteLength : Nat) : DecodedField :=
  let value : Int := composeLoop bytes i byteLength 0
  let nextIndex := i + byteLength
  let adjusted : Int :=
    if isSigned = true ∧ jsBitSet value (8 * byteLength - 1) = true then
      value - jsShlOne (8 * byteLength)
    else value
  ⟨(adjusted : ℚ) / precision, nextIndex⟩

/-- Decoding metadata of one sensor kind, as in the source's `SensorTypes`
table. -/
structure SensorType where
  type : Nat
  precision : ℚ
  signed : Bool
  bytes : Nat
deriving DecidableEq

def SensorTypes.DIG_IN : SensorType := ⟨0, 1, false, 1⟩

def SensorTypes.DIG_OUT : SensorType := ⟨1, 1, false, 1⟩

def SensorTypes.ANL_IN : SensorType := ⟨2, 100, true, 2⟩

def SensorTypes.ANL_OUT : SensorType := ⟨3, 100, true, 2⟩

def SensorTypes.ILLUM_SENS : SensorType := ⟨101, 1, false, 2⟩

def SensorTypes.PRSNC_SENS : SensorType := ⟨102, 1, false, 1⟩

def SensorTypes.TEMP_SENS : SensorType := ⟨103, 10, true, 2⟩

def SensorTypes.HUM_SENS : SensorType := ⟨104, 10, false, 2⟩

def SensorTypes.ACCRM_SENS : SensorType := ⟨113, 1000, true, 6⟩

def SensorTypes.BARO_SENS : SensorType := ⟨115, 10, false, 2⟩

def SensorTypes.GYRO_SENS : SensorType := ⟨134, 100, true, 6⟩

def SensorTypes.GPS_LOC : SensorType := ⟨136, 10000, true, 12⟩

/-- String a channel byte contributes to an output key: the decimal digits
of the byte, or `"undefined"` when the read fell outside the buffer. -/
def chanStr : Option Nat → String
  | some c => toString c
  | none => "undefined"

/-- JavaScript object assignment on an association list: update an existing
key in place, otherwise append the new property. -/
def objInsert (l : List (String × JsValue)) (k : String) (v : JsValue) :
    List (String × JsValue) :=
  match l with
  | [] => [(k, v)]
  | (k', v') :: rest =>
    if k' = k then (k, v) :: rest else (k', v') :: objInsert rest k v

/-- The decoded object the walker builds: its sensor-reading properties in
insertion order, and its `errors` property (absent ↔ `[]`). -/
structure DataObj where
  entries : List (String × JsValue)
  errors : List String
deriving DecidableEq

/-- Loop state of `processPayloadVersion_ONE`: the index `i` and the object
under construction. -/
structure VState where
  i : Nat
  entries : List (String × JsValue)
  errors : List String
deriving DecidableEq

/-- One iteration of the source's `for` loop: read the type and channel
bytes, dispatch on the type exactly as the `switch` does, and either store a
decoded scalar, store a decoded `{x, y, z}` triple, or record the
unknown-type error and jump to the end of the buffer. -/
def stepRecord (bytes : List Nat) (s : VState) : VState :=
  let type := bytes.getD s.i 0
  let channel := bytes[s.i + 1]?
  let i := s.i + 2
  if type = SensorTypes.DIG_IN.type then
    let r := decodeValue bytes i SensorTypes.DIG_IN.signed
      SensorTypes.DIG_IN.precision SensorTypes.DIG_IN.bytes
    ⟨r.index, objInsert s.entries ("digital_" ++ chanStr channel) (.num r.value),
      s.errors⟩
  else if type = SensorTypes.DIG_OUT.type then
    let r := decodeValue bytes i SensorTypes.DIG_OUT.signed
      SensorTypes.DIG_OUT.precision SensorTypes.DIG_OUT.bytes
    ⟨r.index, objInsert s.entries ("digital_" ++ chanStr channel) (.num r.value),
      s.errors⟩
  else if type = SensorTypes.ANL_IN.type then
    let r := decodeValue bytes i SensorTypes.ANL_IN.signed
      SensorTypes.ANL_IN.precision SensorTypes.ANL_IN.bytes
    ⟨r.index, objInsert s.entries ("analog_" ++ chanStr channel) (.num r.value),
      s.errors⟩
  else if type = SensorTypes.ANL_OUT.type then
    let r := decodeValue bytes i SensorTypes.ANL_OUT.signed
      SensorTypes.ANL_OUT.precision SensorTypes.ANL_OUT.bytes
    ⟨r.index, objInsert s.entries ("analog_" ++ chanStr channel) (.num r.value),
      s.errors⟩
  else if type = SensorTypes.ILLUM_SENS.type then
    let r := decodeValue bytes i SensorTypes.ILLUM_SENS.signed
      SensorTypes.ILLUM_SENS.precision SensorTypes.ILLUM_SENS.bytes
    ⟨r.index,
      objInsert s.entries ("illumination_" ++ chanStr channel) (.num r.value),
      s.errors⟩
  else if type = SensorTypes.PRSNC_SENS.type then
    let r := decodeValue bytes i SensorTypes.PRSNC_SENS.signed
      SensorTypes.PRSNC_SENS.precision SensorTypes.PRSNC_SENS.bytes
    ⟨r.index,
      objInsert s.entries ("presence_" ++ chanStr channel) (.num r.value),
      s.errors⟩
  else if type = SensorTypes.TEMP_SENS.type then
    let r := decodeValue bytes i SensorTypes.TEMP_SENS.signed
      SensorTypes.TEMP_SENS.precision SensorTypes.TEMP_SENS.bytes
    ⟨r.index,
      objInsert s.entries ("temperature_" ++ chanStr channel) (.num r.value),
      s.errors⟩
  else if type = SensorTypes.HUM_SENS.type then
    let r := decodeValue bytes i SensorTypes.HUM_SENS.signed
      SensorTypes.HUM_SENS.precision SensorTypes.HUM_SENS.bytes
    ⟨r.index,
      objInsert s.entries ("humidity_" ++ chanStr channel) (.num r.value),
      s.errors⟩
  else if type = SensorTypes.ACCRM_SENS.type then
    let rX := decodeValue bytes i SensorTypes.ACCRM_SENS.signed
      SensorTypes.ACCRM_SENS.precision (SensorTypes.ACCRM_SENS.bytes / 3)
    let rY := decodeValue bytes rX.index SensorTypes.ACCRM_SENS.signed
      SensorTypes.ACCRM_SENS.precision (SensorTypes.ACCRM_SENS.bytes / 3)
    let rZ := decodeValue bytes rY.index SensorTypes.ACCRM_SENS.signed
      SensorTypes.ACCRM_SENS.precision (SensorTypes.ACCRM_SENS.bytes / 3)
    ⟨rZ.index,
      objInsert s.entries ("accelerometer_" ++ chanStr channel)
        (.vec3 rX.value rY.value rZ.value),
      s.errors⟩
  else if type = SensorTypes.BARO_SENS.type then
    let r := decodeValue bytes i SensorTypes.BARO_SENS.signed
      SensorTypes.BARO_SENS.precision SensorTypes.BARO_SENS.bytes
    ⟨r.index,
      objInsert s.entries ("barometer_" ++ chanStr channel) (.num r.value),
      s.errors⟩
  else if type = SensorTypes.GYRO_SENS.type then
    let rX := decodeValue bytes i SensorTypes.GYRO_SENS.signed
      SensorTypes.GYRO_SENS.precision (SensorTypes.GYRO_SENS.bytes / 3)
    let rY := decodeValue bytes rX.index SensorTypes.GYRO_SENS.signed
      SensorTypes.GYRO_SENS.precision (SensorTypes.GYRO_SENS.bytes / 3)
    let rZ := decodeValue bytes rY.index SensorTypes.GYRO_SENS.signed
      SensorTypes.GYRO_SENS.precision (SensorTypes.GYRO_SENS.bytes / 3)
    ⟨rZ.index,
      objInsert s.entries ("gyroscope_" ++ chanStr channel)
        (.vec3 rX.value rY.value rZ.value),
      s.errors⟩
  else if type = SensorTypes.GPS_LOC.type then
    let rX := decodeValue bytes i SensorTypes.GPS_LOC.signed
      SensorTypes.GPS_LOC.precision (SensorTypes.GPS_LOC.bytes / 3)
    let rY := decodeValue bytes rX.index SensorTypes.GPS_LOC.signed
      SensorTypes.GPS_LOC.precision (SensorTypes.GPS_LOC.bytes / 3)
    let rZ := decodeValue bytes rY.index SensorTypes.GPS_LOC.signed
      (SensorTypes.GPS_LOC.precision / 100) (SensorTypes.GPS_LOC.bytes / 3)
    ⟨rZ.index,
      objInsert s.entries ("gps_" ++ chanStr channel)
        (.vec3 rX.value rY.value rZ.value),
      s.errors⟩
  else
    ⟨bytes.length, s.entries, ["Unknown type: " ++ toString type]⟩

/-- Fuel-indexed iteration of the loop `for (let i = 0; i < bytes.length;)`. -/
def walk (fuel : Nat) (bytes : List Nat) (s : VState) : VState :=
  match fuel with
  | 0 => s
  | fuel + 1 => if s.i < bytes.length then walk fuel bytes (stepRecord bytes s) else s

/-- Embedding of `processPayloadVersion_ONE(bytes, decoded)`: run the loop to
completion (fuel `bytes.length` always suffices, see the termination
theorem) and return the populated object. -/
def processPayloadVersion_ONE (bytes : List Nat) (decoded : DataObj) : DataObj :=
  let final := walk bytes.length bytes ⟨0, decoded.entries, decoded.errors⟩
  ⟨final.entries, final.errors⟩

/-- The argument of `decodeUplink`. -/
structure UplinkInput where
  fPort : Int
  bytes : List Nat
deriving DecidableEq

/-- The object returned by `decodeUplink`. -/
structure DecodeResult where
  decoder_version : Int
  data : DataObj
  warnings : List String
  errors : List String
deriving DecidableEq

/-- Embedding of `decodeUplink(input)`: dispatch on the payload version,
decode via `processPayloadVersion_ONE` for version 1, otherwise store the
unsupported-version message on the decoded object; wrap the result with the
version echo and (always empty) top-level warning and error lists. -/
def decodeUplink (input : UplinkInput) : DecodeResult :=
  let bytes := input.bytes
  let payload_version := input.fPort
  let decoded : DataObj :=
    if payload_version = 1 then
      processPayloadVersion_ONE bytes ⟨[], []⟩
    else
      ⟨[], ["Payload Version not supported: " ++ toString payload_version]⟩
  { decoder_version := payload_version
    data := decoded
    warnings := []
    errors := [] }

/-- Spec-side descriptor of one registered sensor kind: its wire type id,
the word used in output keys, signedness, fixed-point divisor, total byte
width and whether it decodes to an `{x, y, z}` triple. -/
structure Desc where
  tid : Nat
  label : String
  sgn : Bool
  divisor : ℚ
  width : Nat
  isVec : Bool
deriving DecidableEq

/-- The fixed registry of the twelve supported sensor kinds, with the key
words of the source's `decoded[...]` assignments. -/
def catalog : List Desc :=
  [⟨0, "digital", false, 1, 1, false⟩,
   ⟨1, "digital", false, 1, 1, false⟩,
   ⟨2, "analog", true, 100, 2, false⟩,
   ⟨3, "analog", true, 100, 2, false⟩,
   ⟨101, "illumination", false, 1, 2, false⟩,
   ⟨102, "presence", false, 1, 1, false⟩,
   ⟨103, "temperature", true, 10, 2, false⟩,
   ⟨104, "humidity", false, 10, 2, false⟩,
   ⟨113, "accelerometer", true, 1000, 6, true⟩,
   ⟨115, "barometer", false, 10, 2, false⟩,
   ⟨134, "gyroscope", true, 100, 6, true⟩,
   ⟨136, "gps", true, 10000, 12, true⟩]

/-- One well-formed record of the wire format: a registered descriptor, a
channel byte, and exactly `width` payload bytes. -/
structure Record where
  desc : Desc
  chan : Nat
  payload : List Nat
deriving DecidableEq

def Record.wf (r : Record) : Prop :=
  r.desc ∈ catalog ∧ r.chan < 256 ∧ r.payload.length = r.desc.width ∧
    ∀ b ∈ r.payload, b < 256

instance (r : Record) : Decidable r.wf := by
  unfold Record.wf; infer_instance

def encodeRec (r : Record) : List Nat := r.desc.tid :: r.chan :: r.payload

def encodeRecs : List Record → List Nat
  | [] => []
  | r :: rs => encodeRec r ++ encodeRecs rs

/-- The divisor the walker passes for the third vector component: `gps`
overrides it to `divisor / 100`, every other kind keeps the shared one. -/
def thirdDivisor (d : Desc) : ℚ :=
  if d.tid = 136 then d.divisor / 100 else d.divisor

/-- The output key of a record. -/
def recKey (d : Desc) (c : Nat) : String := d.label ++ "_" ++ toString c

/-- The output value of a record, phrased locally on its payload bytes:
one field of the full width for scalar kinds, three consecutive fields of a
third of the width each for vector kinds. -/
def recVal (d : Desc) (bs : List Nat) : JsValue :=
  if d.isVec = true then
    .vec3 (decodeValue bs 0 d.sgn d.divisor (d.width / 3)).value
      (decodeValue bs (d.width / 3) d.sgn d.divisor (d.width / 3)).value
      (decodeValue bs (2 * (d.width / 3)) d.sgn (thirdDivisor d) (d.width / 3)).value
  else
    .num (decodeValue bs 0 d.sgn d.divisor d.width).value

/-- Folding a record list into an object, in input order. -/
def insertRecs (rs : List Record) (entries : List (String × JsValue)) :
    List (String × JsValue) :=
  rs.foldl (fun e r => objInsert e (recKey r.desc r.chan) (recVal r.desc r.payload))
    entries

/-- The little-endian unsigned integer of a byte list, least significant
byte first, as the claims state it. -/
def leVal : List Nat → Nat
  | [] => 0
  | b :: rest => b + 256 * leVal rest

/-- The value claim C1 specifies for a scalar record: the little-endian
integer, two's-complement adjusted via subtraction of `2 ^ (8 * width)` when
signed and the top bit is set, divided by the divisor exactly. -/
def claimScalarValue (d : Desc) (bs : List Nat) : ℚ :=
  (if d.sgn = true ∧ 2 ^ (8 * d.width - 1) ≤ leVal bs then
    ((leVal bs : Nat) : Int) - 2 ^ (8 * d.width)
  else ((leVal bs : Nat) : Int)) / d.divisor

/-- The value the walker stores for a record whose data bytes are all
missing: zero for a scalar kind, a zero triple for a vector kind. -/
def zeroVal (d : Desc) : JsValue :=
  if d.isVec = true then .vec3 0 0 0 else .num 0

lemma composeLoopGen_succ (f : Int → Nat → Int) (b : List Nat) (i L : Nat)
    (v : Int) :
    composeLoopGen f b i (L + 1) v =
      composeLoopGen f b i L (f v (b.getD (i + L) 0)) := rfl

lemma composeLoop_succ (b : List Nat) (i L : Nat) (v : Int) :
    composeLoop b i (L + 1) v =
      composeLoop b i L (jsComposeStep v (b.getD (i + L) 0)) :=
  composeLoopGen_succ jsComposeStep b i L v

lemma composeLoop_zero (b : List Nat) (i : Nat) (v : Int) :
    composeLoop b i 0 v = v := rfl

lemma jsComposeStep_small (v : Int) (b : Nat) (hv : 0 ≤ v) (hv2 : v < 8388608)
    (hb : b < 256) : jsComposeStep v b = 256 * v + b := by
  simp only [jsComposeStep, toUint32, toInt32]
  omega

lemma jsComposeStep_wrap (v : Int) (b : Nat) (hv : 0 ≤ v) (hv2 : v < 16777216)
    (hb : b < 256) : jsComposeStep v b = toInt32 (256 * v + b) := by
  simp only [jsComposeStep, toUint32, toInt32]
  omega

lemma jsBitSet_seven (v : Int) (hv : 0 ≤ v) (hv2 : v < 256) :
    jsBitSet v 7 = true ↔ 128 ≤ v := by
  simp only [jsBitSet, toUint32, decide_eq_true_eq]
  norm_num
  omega

lemma jsBitSet_fifteen (v : Int) (hv : 0 ≤ v) (hv2 : v < 65536) :
    jsBitSet v 15 = true ↔ 32768 ≤ v := by
  simp only [jsBitSet, toUint32, decide_eq_true_eq]
  norm_num
  omega

lemma jsBitSet_thirtyone (u : Nat) (hu : u < 4294967296) :
    jsBitSet (toInt32 u) 31 = true ↔ 2147483648 ≤ u := by
  simp only [jsBitSet, toUint32, toInt32, decide_eq_true_eq]
  norm_num
  omega

lemma jsShlOne_eight : jsShlOne 8 = 256 := by decide

lemma jsShlOne_sixteen : jsShlOne 16 = 65536 := by decide

lemma jsShlOne_thirtytwo : jsShlOne 32 = 1 := by decide

lemma toInt32_small (u : Nat) (h : u < 2147483648) : toInt32 u = u := by
  simp only [toInt32]
  omega

lemma toInt32_big (u : Nat) (h1 : 2147483648 ≤ u) (h2 : u < 4294967296) :
    toInt32 u = (u : Int) - 4294967296 := by
  simp only [toInt32]
  omega

lemma composeLoop_one (bytes : List Nat) (i : Nat) :
    composeLoop bytes i 1 0 = jsComposeStep 0 (bytes.getD i 0) := rfl

lemma composeLoop_two (bytes : List Nat) (i : Nat) :
    composeLoop bytes i 2 0 =
      jsComposeStep (jsComposeStep 0 (bytes.getD (i + 1) 0)) (bytes.getD i 0) := rfl

lemma composeLoop_four (bytes : List Nat) (i : Nat) :
    composeLoop bytes i 4 0 =
      jsComposeStep (jsComposeStep (jsComposeStep (jsComposeStep 0
        (bytes.getD (i + 3) 0)) (bytes.getD (i + 2) 0)) (bytes.getD (i + 1) 0))
        (bytes.getD i 0) := rfl

/-- Width-1 field decode, characterized arithmetically. -/
lemma decodeValue_width_one (bytes : List Nat) (i : Nat) (sg : Bool) (p : Rat)
    (b0 : Nat) (h0 : bytes.getD i 0 = b0) (hb : b0 < 256) :
    decodeValue bytes i sg p 1 =
      ⟨((if sg = true ∧ 128 ≤ b0 then (b0 : Int) - 256 else (b0 : Int)) : Rat) / p,
        i + 1⟩ := by
  have hc : jsComposeStep 0 b0 = (b0 : Int) := by
    rw [jsComposeStep_small 0 b0 le_rfl (by omega) hb]; omega
  have hbit := jsBitSet_seven (b0 : Int) (Int.natCast_nonneg b0) (by exact_mod_cast hb)
  have hiff : (jsBitSet (b0 : Int) 7 = true) = (128 ≤ b0) := by
    rw [eq_iff_iff]
    constructor
    · intro hh; exact_mod_cast hbit.mp hh
    · intro hh; exact hbit.mpr (by exact_mod_cast hh)
  have h8 : (8 * 1 - 1 : Nat) = 7 := rfl
  have h8two : (8 * 1 : Nat) = 8 := rfl
  have hv := composeLoop_one bytes i
  simp only [decodeValue, hv, h0, hc, h8, h8two, jsShlOne_eight, hiff]
  by_cases hx : sg = true ∧ 128 ≤ b0
  · simp only [if_pos hx, DecodedField.mk.injEq, and_true]; push_cast; ring
  · simp only [if_neg hx, DecodedField.mk.injEq, and_true]

/-- Width-2 field decode, characterized arithmetically. -/
lemma decodeValue_width_two (bytes : List Nat) (i : Nat) (sg : Bool) (p : Rat)
    (b0 b1 : Nat) (h0 : bytes.getD i 0 = b0) (h1 : bytes.getD (i + 1) 0 = b1)
    (hb0 : b0 < 256) (hb1 : b1 < 256) :
    decodeValue bytes i sg p 2 =
      ⟨((if sg = true ∧ 32768 ≤ b0 + 256 * b1 then
          ((b0 + 256 * b1 : Nat) : Int) - 65536 else ((b0 + 256 * b1 : Nat) : Int)) : Rat) / p,
        i + 2⟩ := by
  have hc1 : jsComposeStep 0 b1 = (b1 : Int) := by
    rw [jsComposeStep_small 0 b1 le_rfl (by omega) hb1]; omega
  have hc0 : jsComposeStep (b1 : Int) b0 = ((b0 + 256 * b1 : Nat) : Int) := by
    rw [jsComposeStep_small _ b0 (Int.natCast_nonneg b1) (by omega) hb0]
    push_cast; ring
  have hbit := jsBitSet_fifteen ((b0 + 256 * b1 : Nat) : Int) (Int.natCast_nonneg _)
    (by exact_mod_cast (by omega : b0 + 256 * b1 < 65536))
  have hiff : (jsBitSet ((b0 + 256 * b1 : Nat) : Int) 15 = true) = (32768 ≤ b0 + 256 * b1) := by
    rw [eq_iff_iff]
    constructor
    · intro hh; exact_mod_cast hbit.mp hh
    · intro hh; exact hbit.mpr (by exact_mod_cast hh)
  have h16 : (8 * 2 - 1 : Nat) = 15 := rfl
  have h16two : (8 * 2 : Nat) = 16 := rfl
  have hv := composeLoop_two bytes i
  simp only [decodeValue, hv, h1, hc1, h0, hc0, h16, h16two, jsShlOne_sixteen, hiff]
  by_cases hx : sg = true ∧ 32768 ≤ b0 + 256 * b1
  · simp only [if_pos hx, DecodedField.mk.injEq, and_true]; push_cast; ring
  · simp only [if_neg hx, DecodedField.mk.injEq, and_true]

lemma compose_four_bytes (b0 b1 b2 b3 : Nat)
    (hb0 : b0 < 256) (hb1 : b1 < 256) (hb2 : b2 < 256) (hb3 : b3 < 256) :
    jsComposeStep (jsComposeStep (jsComposeStep (jsComposeStep 0 b3) b2) b1) b0 =
      toInt32 ((b0 + 256 * b1 + 65536 * b2 + 16777216 * b3 : Nat) : Int) := by
  have hc3 : jsComposeStep 0 b3 = (b3 : Int) := by
    rw [jsComposeStep_small 0 b3 le_rfl (by omega) hb3]; omega
  have hc2 : jsComposeStep (b3 : Int) b2 = ((b2 + 256 * b3 : Nat) : Int) := by
    rw [jsComposeStep_small _ b2 (Int.natCast_nonneg b3) (by omega) hb2]
    push_cast; ring
  have hc1 : jsComposeStep ((b2 + 256 * b3 : Nat) : Int) b1 =
      ((b1 + 256 * b2 + 65536 * b3 : Nat) : Int) := by
    rw [jsComposeStep_small _ b1 (Int.natCast_nonneg _) (by omega) hb1]
    push_cast; ring
  have harg : (256 * ((b1 + 256 * b2 + 65536 * b3 : Nat) : Int) + (b0 : Nat)) =
      ((b0 + 256 * b1 + 65536 * b2 + 16777216 * b3 : Nat) : Int) := by
    push_cast; ring
  have hc0 : jsComposeStep ((b1 + 256 * b2 + 65536 * b3 : Nat) : Int) b0 =
      toInt32 ((b0 + 256 * b1 + 65536 * b2 + 16777216 * b3 : Nat) : Int) := by
    rw [jsComposeStep_wrap _ b0 (Int.natCast_nonneg _) (by omega) hb0, harg]
  rw [hc3, hc2, hc1, hc0]

/-- Width-4 signed field decode: the value is composed with 32-bit wrap-around
(so it is already in two's-complement form), and the sign adjustment subtracts
`jsShlOne 32 = 1`, yielding the two's-complement value minus one when the top
bit is set. -/
lemma decodeValue_width_four_signed (bytes : List Nat) (i : Nat) (p : Rat)
    (b0 b1 b2 b3 : Nat)
    (h0 : bytes.getD i 0 = b0) (h1 : bytes.getD (i + 1) 0 = b1)
    (h2 : bytes.getD (i + 2) 0 = b2) (h3 : bytes.getD (i + 3) 0 = b3)
    (hb0 : b0 < 256) (hb1 : b1 < 256) (hb2 : b2 < 256) (hb3 : b3 < 256) :
    decodeValue bytes i true p 4 =
      ⟨((if 2147483648 ≤ b0 + 256 * b1 + 65536 * b2 + 16777216 * b3 then
          ((b0 + 256 * b1 + 65536 * b2 + 16777216 * b3 : Nat) : Int) - 4294967297
        else ((b0 + 256 * b1 + 65536 * b2 + 16777216 * b3 : Nat) : Int)) : Rat) / p,
        i + 4⟩ := by
  have hlt : b0 + 256 * b1 + 65536 * b2 + 16777216 * b3 < 4294967296 := by omega
  have hbit := jsBitSet_thirtyone (b0 + 256 * b1 + 65536 * b2 + 16777216 * b3) hlt
  have hcomp := compose_four_bytes b0 b1 b2 b3 hb0 hb1 hb2 hb3
  have hv := composeLoop_four bytes i
  have h32 : (8 * 4 - 1 : Nat) = 31 := rfl
  have h32two : (8 * 4 : Nat) = 32 := rfl
  simp only [decodeValue, hv, h0, h1, h2, h3, hcomp, h32, h32two,
    jsShlOne_thirtytwo, hbit, true_and]
  by_cases hx : 2147483648 ≤ b0 + 256 * b1 + 65536 * b2 + 16777216 * b3
  · rw [if_pos hx, if_pos hx, toInt32_big _ hx hlt]
    simp only [DecodedField.mk.injEq, and_true]
    push_cast
    ring
  · rw [if_neg hx, if_neg hx, toInt32_small _ (Nat.lt_of_not_le hx)]

lemma decodeValue_index (bytes : List Nat) (i : Nat) (sg : Bool) (p : ℚ)
    (L : Nat) : (decodeValue bytes i sg p L).index = i + L := rfl

/-- Every loop iteration strictly advances the index (a known sensor type
advances it past the record it consumed, an unknown type jumps to the end of
the buffer). -/
lemma stepRecord_i_lt (bytes : List Nat) (s : VState) (h : s.i < bytes.length) :
    s.i < (stepRecord bytes s).i := by
  simp only [stepRecord]
  by_cases h1 : bytes.getD s.i 0 = SensorTypes.DIG_IN.type
  · rw [if_pos h1]; simp only [decodeValue_index]; omega
  rw [if_neg h1]
  by_cases h2 : bytes.getD s.i 0 = SensorTypes.DIG_OUT.type
  · rw [if_pos h2]; simp only [decodeValue_index]; omega
  rw [if_neg h2]
  by_cases h3 : bytes.getD s.i 0 = SensorTypes.ANL_IN.type
  · rw [if_pos h3]; simp only [decodeValue_index]; omega
  rw [if_neg h3]
  by_cases h4 : bytes.getD s.i 0 = SensorTypes.ANL_OUT.type
  · rw [if_pos h4]; simp only [decodeValue_index]; omega
  rw [if_neg h4]
  by_cases h5 : bytes.getD s.i 0 = SensorTypes.ILLUM_SENS.type
  · rw [if_pos h5]; simp only [decodeValue_index]; omega
  rw [if_neg h5]
  by_cases h6 : bytes.getD s.i 0 = SensorTypes.PRSNC_SENS.type
  · rw [if_pos h6]; simp only [decodeValue_index]; omega
  rw [if_neg h6]
  by_cases h7 : bytes.getD s.i 0 = SensorTypes.TEMP_SENS.type
  · rw [if_pos h7]; simp only [decodeValue_index]; omega
  rw [if_neg h7]
  by_cases h8 : bytes.getD s.i 0 = SensorTypes.HUM_SENS.type
  · rw [if_pos h8]; simp only [decodeValue_index]; omega
  rw [if_neg h8]
  by_cases h9 : bytes.getD s.i 0 = SensorTypes.ACCRM_SENS.type
  · rw [if_pos h9]; simp only [decodeValue_index]; omega
  rw [if_neg h9]
  by_cases h10 : bytes.getD s.i 0 = SensorTypes.BARO_SENS.type
  · rw [if_pos h10]; simp only [decodeValue_index]; omega
  rw [if_neg h10]
  by_cases h11 : bytes.getD s.i 0 = SensorTypes.GYRO_SENS.type
  · rw [if_pos h11]; simp only [decodeValue_index]; omega
  rw [if_neg h11]
  by_cases h12 : bytes.getD s.i 0 = SensorTypes.GPS_LOC.type
  · rw [if_pos h12]; simp only [decodeValue_index]; omega
  rw [if_neg h12]
  exact h

lemma walk_stop (fuel : Nat) (bytes : List Nat) (s : VState)
    (h : ¬ s.i < bytes.length) : walk fuel bytes s = s := by
  cases fuel <;> simp [walk, h]

lemma walk_succ (fuel : Nat) (bytes : List Nat) (s : VState)
    (h : s.i < bytes.length) :
    walk (fuel + 1) bytes s = walk fuel bytes (stepRecord bytes s) := by
  simp [walk, h]

/-- Any fuel of at least the remaining byte count yields the same final
state: the loop stabilizes, so the fuel-indexed embedding computes the
loop's limit. -/
lemma walk_fuel_irrel (fuelA : Nat) (bytes : List Nat) (s : VState)
    (fuelB : Nat) (hA : bytes.length - s.i ≤ fuelA)
    (hB : bytes.length - s.i ≤ fuelB) :
    walk fuelA bytes s = walk fuelB bytes s := by
  induction fuelA generalizing fuelB s with
  | zero =>
    have hstop : ¬ s.i < bytes.length := by omega
    rw [walk_stop 0 bytes s hstop, walk_stop fuelB bytes s hstop]
  | succ fuelA ih =>
    by_cases hlt : s.i < bytes.length
    · cases fuelB with
      | zero => omega
      | succ fuelB =>
        rw [walk_succ fuelA bytes s hlt, walk_succ fuelB bytes s hlt]
        have hstep := stepRecord_i_lt bytes s hlt
        exact ih (stepRecord bytes s) fuelB (by omega) (by omega)
    · rw [walk_stop _ bytes s hlt, walk_stop fuelB bytes s hlt]

/-- With sufficient fuel, one loop iteration can be peeled off without
changing the fuel. -/
lemma walk_step_of (fuel : Nat) (bytes : List Nat) (s : VState)
    (hlt : s.i < bytes.length) (hf : bytes.length - s.i ≤ fuel) :
    walk fuel bytes s = walk fuel bytes (stepRecord bytes s) := by
  cases fuel with
  | zero => omega
  | succ fuel =>
    rw [walk_succ fuel bytes s hlt]
    have hstep := stepRecord_i_lt bytes s hlt
    exact walk_fuel_irrel fuel bytes (stepRecord bytes s) (fuel + 1)
      (by omega) (by omega)

/-- With sufficient fuel the loop runs until its guard fails. -/
lemma walk_final (fuel : Nat) (bytes : List Nat) (s : VState)
    (hf : bytes.length - s.i ≤ fuel) :
    ¬ (walk fuel bytes s).i < bytes.length := by
  induction fuel generalizing s with
  | zero =>
    have hstop : ¬ s.i < bytes.length := by omega
    rw [walk_stop 0 bytes s hstop]
    exact hstop
  | succ fuel ih =>
    by_cases hlt : s.i < bytes.length
    · rw [walk_succ fuel bytes s hlt]
      have hstep := stepRecord_i_lt bytes s hlt
      exact ih (stepRecord bytes s) (by omega)
    · rw [walk_stop _ bytes s hlt]
      exact hlt

/-- The composition loop only reads the `byteLength` bytes starting at the
given offset. -/
lemma composeLoop_congr (bytesA bytesB : List Nat) (iA iB : Nat) (L : Nat)
    (h : ∀ k, k < L → bytesA.getD (iA + k) 0 = bytesB.getD (iB + k) 0) :
    ∀ v : Int, composeLoop bytesA iA L v = composeLoop bytesB iB L v := by
  induction L with
  | zero => intro v; rfl
  | succ L ih =>
    intro v
    rw [composeLoop_succ, composeLoop_succ, h L (Nat.lt_succ_self L)]
    exact ih (fun k hk => h k (Nat.lt_succ_of_lt hk)) _

/-- The decoded value only depends on the bytes of the field itself. -/
lemma decodeValue_congr (bytesA bytesB : List Nat) (iA iB : Nat) (sg : Bool)
    (p : ℚ) (L : Nat)
    (h : ∀ k, k < L → bytesA.getD (iA + k) 0 = bytesB.getD (iB + k) 0) :
    (decodeValue bytesA iA sg p L).value = (decodeValue bytesB iB sg p L).value := by
  simp only [decodeValue]
  rw [composeLoop_congr bytesA bytesB iA iB L h 0]

/-- Effect of one loop iteration at the boundary of a well-formed record:
the record's bytes are consumed, and its key and locally-decoded value are
stored. -/
lemma stepRecord_encode (pre post : List Nat) (r : Record) (s : VState)
    (hwf : r.wf) (hi : s.i = pre.length) :
    stepRecord (pre ++ encodeRec r ++ post) s =
      ⟨pre.length + 2 + r.desc.width,
        objInsert s.entries (recKey r.desc r.chan) (recVal r.desc r.payload),
        s.errors⟩ := by
  obtain ⟨d, c, bs⟩ := r
  obtain ⟨hmem, hchan, hlen, hbytes⟩ := hwf
  obtain ⟨si, entries0, errors0⟩ := s
  simp only at hi hmem hlen hbytes ⊢
  subst hi
  simp only [encodeRec]
  fin_cases hmem <;> dsimp only at hlen ⊢
  · have hlen2 : bs.length = 1 := hlen
    have htype : (pre ++ (0 :: c :: bs) ++ post).getD pre.length 0 = 0 := by
      rw [List.append_assoc, List.getD_append_right pre _ 0 pre.length le_rfl]
      simp
    have hchn : (pre ++ (0 :: c :: bs) ++ post)[pre.length + 1]? = some c := by
      rw [List.append_assoc, List.getElem?_append_right (by omega)]
      simp
    have hread : ∀ k, k < 1 →
        (pre ++ (0 :: c :: bs) ++ post).getD (pre.length + 2 + k) 0 = bs.getD (0 + k) 0 := by
      intro k hk
      rw [List.append_assoc, List.getD_append_right pre _ 0 _ (by omega)]
      have h2k : pre.length + 2 + k - pre.length = k + 1 + 1 := by omega
      rw [h2k]
      simp only [List.cons_append, List.getD_cons_succ, Nat.zero_add]
      exact List.getD_append _ _ _ _ (by omega)
    have hval : (decodeValue (pre ++ (0 :: c :: bs) ++ post) (pre.length + 2) false 1 1).value =
        (decodeValue bs 0 false 1 1).value :=
      decodeValue_congr _ _ _ _ false 1 1 hread
    simp only [stepRecord, htype, hchn,
      show ((0 : Nat) = SensorTypes.DIG_IN.type) = True by simp [SensorTypes.DIG_IN],
      if_false, if_true,
      show SensorTypes.DIG_IN.signed = false from rfl,
      show SensorTypes.DIG_IN.precision = 1 from rfl,
      show SensorTypes.DIG_IN.bytes = 1 from rfl,
      show (1 / 3 : Nat) = 0 from rfl,
      chanStr, hval, decodeValue_index, VState.mk.injEq,
      show ("digital" : String) ++ "_" = "digital_" from rfl, true_and, and_true]
    simp [recVal, recKey, thirdDivisor,
      show ("digital" : String) ++ "_" = "digital_" from rfl]
  · have hlen2 : bs.length = 1 := hlen
    have htype : (pre ++ (1 :: c :: bs) ++ post).getD pre.length 0 = 1 := by
      rw [List.append_assoc, List.getD_append_right pre _ 0 pre.length le_rfl]
      simp
    have hchn : (pre ++ (1 :: c :: bs) ++ post)[pre.length + 1]? = some c := by
      rw [List.append_assoc, List.getElem?_append_right (by omega)]
      simp
    have hread : ∀ k, k < 1 →
        (pre ++ (1 :: c :: bs) ++ post).getD (pre.length + 2 + k) 0 = bs.getD (0 + k) 0 := by
      intro k hk
      rw [List.append_assoc, List.getD_append_right pre _ 0 _ (by omega)]
      have h2k : pre.length + 2 + k - pre.length = k + 1 + 1 := by omega
      rw [h2k]
      simp only [List.cons_append, List.getD_cons_succ, Nat.zero_add]
      exact List.getD_append _ _ _ _ (by omega)
    have hval : (decodeValue (pre ++ (1 :: c :: bs) ++ post) (pre.length + 2) false 1 1).value =
        (decodeValue bs 0 false 1 1).value :=
      decodeValue_congr _ _ _ _ false 1 1 hread
    simp only [stepRecord, htype, hchn,
      show ((1 : Nat) = SensorTypes.DIG_IN.type) = False by simp [SensorTypes.DIG_IN],
      show ((1 : Nat) = SensorTypes.DIG_OUT.type) = True by simp [SensorTypes.DIG_OUT],
      if_false, if_true,
      show SensorTypes.DIG_OUT.signed = false from rfl,
      show SensorTypes.DIG_OUT.precision = 1 from rfl,
      show SensorTypes.DIG_OUT.bytes = 1 from rfl,
      show (1 / 3 : Nat) = 0 from rfl,
      chanStr, hval, decodeValue_index, VState.mk.injEq,
      show ("digital" : String) ++ "_" = "digital_" from rfl, true_and, and_true]
    simp [recVal, recKey, thirdDivisor,
      show ("digital" : String) ++ "_" = "digital_" from rfl]
  · have hlen2 : bs.length = 2 := hlen
    have htype : (pre ++ (2 :: c :: bs) ++ post).getD pre.length 0 = 2 := by
      rw [List.append_assoc, List.getD_append_right pre _ 0 pre.length le_rfl]
      simp
    have hchn : (pre ++ (2 :: c :: bs) ++ post)[pre.length + 1]? = some c := by
      rw [List.append_assoc, List.getElem?_append_right (by omega)]
      simp
    have hread : ∀ k, k < 2 →
        (pre ++ (2 :: c :: bs) ++ post).getD (pre.length + 2 + k) 0 = bs.getD (0 + k) 0 := by
      intro k hk
      rw [List.append_assoc, List.getD_append_right pre _ 0 _ (by omega)]
      have h2k : pre.length + 2 + k - pre.length = k + 1 + 1 := by omega
      rw [h2k]
      simp only [List.cons_append, List.getD_cons_succ, Nat.zero_add]
      exact List.getD_append _ _ _ _ (by omega)
    have hval : (decodeValue (pre ++ (2 :: c :: bs) ++ post) (pre.length + 2) true 100 2).value =
        (decodeValue bs 0 true 100 2).value :=
      decodeValue_congr _ _ _ _ true 100 2 hread
    simp only [stepRecord, htype, hchn,
      show ((2 : Nat) = SensorTypes.DIG_IN.type) = False by simp [SensorTypes.DIG_IN],
      show ((2 : Nat) = SensorTypes.DIG_OUT.type) = False by simp [SensorTypes.DIG_OUT],
      show ((2 : Nat) = SensorTypes.ANL_IN.type) = True by simp [SensorTypes.ANL_IN],
      if_false, if_true,
      show SensorTypes.ANL_IN.signed = true from rfl,
      show SensorTypes.ANL_IN.precision = 100 from rfl,
      show SensorTypes.ANL_IN.bytes = 2 from rfl,
      show (2 / 3 : Nat) = 0 from rfl,
      chanStr, hval, decodeValue_index, VState.mk.injEq,
      show ("analog" : String) ++ "_" = "analog_" from rfl, true_and, and_true]
    simp [recVal, recKey, thirdDivisor,
      show ("analog" : String) ++ "_" = "analog_" from rfl]
  · have hlen2 : bs.length = 2 := hlen
    have htype : (pre ++ (3 :: c :: bs) ++ post).getD pre.length 0 = 3 := by
      rw [List.append_assoc, List.getD_append_right pre _ 0 pre.length le_rfl]
      simp
    have hchn : (pre ++ (3 :: c :: bs) ++ post)[pre.length + 1]? = some c := by
      rw [List.append_assoc, List.getElem?_append_right (by omega)]
      simp
    have hread : ∀ k, k < 2 →
        (pre ++ (3 :: c :: bs) ++ post).getD (pre.length + 2 + k) 0 = bs.getD (0 + k) 0 := by
      intro k hk
      rw [List.append_assoc, List.getD_append_right pre _ 0 _ (by omega)]
      have h2k : pre.length + 2 + k - pre.length = k + 1 + 1 := by omega
      rw [h2k]
      simp only [List.cons_append, List.getD_cons_succ, Nat.zero_add]
      exact List.getD_append _ _ _ _ (by omega)
    have hval : (decodeValue (pre ++ (3 :: c :: bs) ++ post) (pre.length + 2) true 100 2).value =
        (decodeValue bs 0 true 100 2).value :=
      decodeValue_congr _ _ _ _ true 100 2 hread
    simp only [stepRecord, htype, hchn,
      show ((3 : Nat) = SensorTypes.DIG_IN.type) = False by simp [SensorTypes.DIG_IN],
      show ((3 : Nat) = SensorTypes.DIG_OUT.type) = False by simp [SensorTypes.DIG_OUT],
      show ((3 : Nat) = SensorTypes.ANL_IN.type) = False by simp [SensorTypes.ANL_IN],
      show ((3 : Nat) = SensorTypes.ANL_OUT.type) = True by simp [SensorTypes.ANL_OUT],
      if_false, if_true,
      show SensorTypes.ANL_OUT.signed = true from rfl,
      show SensorTypes.ANL_OUT.precision = 100 from rfl,
      show SensorTypes.ANL_OUT.bytes = 2 from rfl,
      show (2 / 3 : Nat) = 0 from rfl,
      chanStr, hval, decodeValue_index, VState.mk.injEq,
      show ("analog" : String) ++ "_" = "analog_" from rfl, true_and, and_true]
    simp [recVal, recKey, thirdDivisor,
      show ("analog" : String) ++ "_" = "analog_" from rfl]
  · have hlen2 : bs.length = 2 := hlen
    have htype : (pre ++ (101 :: c :: bs) ++ post).getD pre.length 0 = 101 := by
      rw [List.append_assoc, List.getD_append_right pre _ 0 pre.length le_rfl]
      simp
    have hchn : (pre ++ (101 :: c :: bs) ++ post)[pre.length + 1]? = some c := by
      rw [List.append_assoc, List.getElem?_append_right (by omega)]
      simp
    have hread : ∀ k, k < 2 →
        (pre ++ (101 :: c :: bs) ++ post).getD (pre.length + 2 + k) 0 = bs.getD (0 + k) 0 := by
      intro k hk
      rw [List.append_assoc, List.getD_append_right pre _ 0 _ (by omega)]
      have h2k : pre.length + 2 + k - pre.length = k + 1 + 1 := by omega
      rw [h2k]
      simp only [List.cons_append, List.getD_cons_succ, Nat.zero_add]
      exact List.getD_append _ _ _ _ (by omega)
    have hval : (decodeValue (pre ++ (101 :: c :: bs) ++ post) (pre.length + 2) false 1 2).value =
        (decodeValue bs 0 false 1 2).value :=
      decodeValue_congr _ _ _ _ false 1 2 hread
    simp only [stepRecord, htype, hchn,
      show ((101 : Nat) = SensorTypes.DIG_IN.type) = False by simp [SensorTypes.DIG_IN],
      show ((101 : Nat) = SensorTypes.DIG_OUT.type) = False by simp [SensorTypes.DIG_OUT],
      show ((101 : Nat) = SensorTypes.ANL_IN.type) = False by simp [SensorTypes.ANL_IN],
      show ((101 : Nat) = SensorTypes.ANL_OUT.type) = False by simp [SensorTypes.ANL_OUT],
      show ((101 : Nat) = SensorTypes.ILLUM_SENS.type) = True by simp [SensorTypes.ILLUM_SENS],
      if_false, if_true,
      show SensorTypes.ILLUM_SENS.signed = false from rfl,
      show SensorTypes.ILLUM_SENS.precision = 1 from rfl,
      show SensorTypes.ILLUM_SENS.bytes = 2 from rfl,
      show (2 / 3 : Nat) = 0 from rfl,
      chanStr, hval, decodeValue_index, VState.mk.injEq,
      show ("illumination" : String) ++ "_" = "illumination_" from rfl, true_and, and_true]
    simp [recVal, recKey, thirdDivisor,
      show ("illumination" : String) ++ "_" = "illumination_" from rfl]
  · have hlen2 : bs.length = 1 := hlen
    have htype : (pre ++ (102 :: c :: bs) ++ post).getD pre.length 0 = 102 := by
      rw [List.append_assoc, List.getD_append_right pre _ 0 pre.length le_rfl]
      simp
    have hchn : (pre ++ (102 :: c :: bs) ++ post)[pre.length + 1]? = some c := by
      rw [List.append_assoc, List.getElem?_append_right (by omega)]
      simp
    have hread : ∀ k, k < 1 →
        (pre ++ (102 :: c :: bs) ++ post).getD (pre.length + 2 + k) 0 = bs.getD (0 + k) 0 := by
      intro k hk
      rw [List.append_assoc, List.getD_append_right pre _ 0 _ (by omega)]
      have h2k : pre.length + 2 + k - pre.length = k + 1 + 1 := by omega
      rw [h2k]
      simp only [List.cons_append, List.getD_cons_succ, Nat.zero_add]
      exact List.getD_append _ _ _ _ (by omega)
    have hval : (decodeValue (pre ++ (102 :: c :: bs) ++ post) (pre.length + 2) false 1 1).value =
        (decodeValue bs 0 false 1 1).value :=
      decodeValue_congr _ _ _ _ false 1 1 hread
    simp only [stepRecord, htype, hchn,
      show ((102 : Nat) = SensorTypes.DIG_IN.type) = False by simp [SensorTypes.DIG_IN],
      show ((102 : Nat) = SensorTypes.DIG_OUT.type) = False by simp [SensorTypes.DIG_OUT],
      show ((102 : Nat) = SensorTypes.ANL_IN.type) = False by simp [SensorTypes.ANL_IN],
      show ((102 : Nat) = SensorTypes.ANL_OUT.type) = False by simp [SensorTypes.ANL_OUT],
      show ((102 : Nat) = SensorTypes.ILLUM_SENS.type) = False by simp [SensorTypes.ILLUM_SENS],
      show ((102 : Nat) = SensorTypes.PRSNC_SENS.type) = True by simp [SensorTypes.PRSNC_SENS],
      if_false, if_true,
      show SensorTypes.PRSNC_SENS.signed = false from rfl,
      show SensorTypes.PRSNC_SENS.precision = 1 from rfl,
      show SensorTypes.PRSNC_SENS.bytes = 1 from rfl,
      show (1 / 3 : Nat) = 0 from rfl,
      chanStr, hval, decodeValue_index, VState.mk.injEq,
      show ("presence" : String) ++ "_" = "presence_" from rfl, true_and, and_true]
    simp [recVal, recKey, thirdDivisor,
      show ("presence" : String) ++ "_" = "presence_" from rfl]
  · have hlen2 : bs.length = 2 := hlen
    have htype : (pre ++ (103 :: c :: bs) ++ post).getD pre.length 0 = 103 := by
      rw [List.append_assoc, List.getD_append_right pre _ 0 pre.length le_rfl]
      simp
    have hchn : (pre ++ (103 :: c :: bs) ++ post)[pre.length + 1]? = some c := by
      rw [List.append_assoc, List.getElem?_append_right (by omega)]
      simp
    have hread : ∀ k, k < 2 →
        (pre ++ (103 :: c :: bs) ++ post).getD (pre.length + 2 + k) 0 = bs.getD (0 + k) 0 := by
      intro k hk
      rw [List.append_assoc, List.getD_append_right pre _ 0 _ (by omega)]
      have h2k : pre.length + 2 + k - pre.length = k + 1 + 1 := by omega
      rw [h2k]
      simp only [List.cons_append, List.getD_cons_succ, Nat.zero_add]
      exact List.getD_append _ _ _ _ (by omega)
    have hval : (decodeValue (pre ++ (103 :: c :: bs) ++ post) (pre.length + 2) true 10 2).value =
        (decodeValue bs 0 true 10 2).value :=
      decodeValue_congr _ _ _ _ true 10 2 hread
    simp only [stepRecord, htype, hchn,
      show ((103 : Nat) = SensorTypes.DIG_IN.type) = False by simp [SensorTypes.DIG_IN],
      show ((103 : Nat) = SensorTypes.DIG_OUT.type) = False by simp [SensorTypes.DIG_OUT],
      show ((103 : Nat) = SensorTypes.ANL_IN.type) = False by simp [SensorTypes.ANL_IN],
      show ((103 : Nat) = SensorTypes.ANL_OUT.type) = False by simp [SensorTypes.ANL_OUT],
      show ((103 : Nat) = SensorTypes.ILLUM_SENS.type) = False by simp [SensorTypes.ILLUM_SENS],
      show ((103 : Nat) = SensorTypes.PRSNC_SENS.type) = False by simp [SensorTypes.PRSNC_SENS],
      show ((103 : Nat) = SensorTypes.TEMP_SENS.type) = True by simp [SensorTypes.TEMP_SENS],
      if_false, if_true,
      show SensorTypes.TEMP_SENS.signed = true from rfl,
      show SensorTypes.TEMP_SENS.precision = 10 from rfl,
      show SensorTypes.TEMP_SENS.bytes = 2 from rfl,
      show (2 / 3 : Nat) = 0 from rfl,
      chanStr, hval, decodeValue_index, VState.mk.injEq,
      show ("temperature" : String) ++ "_" = "temperature_" from rfl, true_and, and_true]
    simp [recVal, recKey, thirdDivisor,
      show ("temperature" : String) ++ "_" = "temperature_" from rfl]
  · have hlen2 : bs.length = 2 := hlen
    have htype : (pre ++ (104 :: c :: bs) ++ post).getD pre.length 0 = 104 := by
      rw [List.append_assoc, List.getD_append_right pre _ 0 pre.length le_rfl]
      simp
    have hchn : (pre ++ (104 :: c :: bs) ++ post)[pre.length + 1]? = some c := by
      rw [List.append_assoc, List.getElem?_append_right (by omega)]
      simp
    have hread : ∀ k, k < 2 →
        (pre ++ (104 :: c :: bs) ++ post).getD (pre.length + 2 + k) 0 = bs.getD (0 + k) 0 := by
      intro k hk
      rw [List.append_assoc, List.getD_append_right pre _ 0 _ (by omega)]
      have h2k : pre.length + 2 + k - pre.length = k + 1 + 1 := by omega
      rw [h2k]
      simp only [List.cons_append, List.getD_cons_succ, Nat.zero_add]
      exact List.getD_append _ _ _ _ (by omega)
    have hval : (decodeValue (pre ++ (104 :: c :: bs) ++ post) (pre.length + 2) false 10 2).value =
        (decodeValue bs 0 false 10 2).value :=
      decodeValue_congr _ _ _ _ false 10 2 hread
    simp only [stepRecord, htype, hchn,
      show ((104 : Nat) = SensorTypes.DIG_IN.type) = False by simp [SensorTypes.DIG_IN],
      show ((104 : Nat) = SensorTypes.DIG_OUT.type) = False by simp [SensorTypes.DIG_OUT],
      show ((104 : Nat) = SensorTypes.ANL_IN.type) = False by simp [SensorTypes.ANL_IN],
      show ((104 : Nat) = SensorTypes.ANL_OUT.type) = False by simp [SensorTypes.ANL_OUT],
      show ((104 : Nat) = SensorTypes.ILLUM_SENS.type) = False by simp [SensorTypes.ILLUM_SENS],
      show ((104 : Nat) = SensorTypes.PRSNC_SENS.type) = False by simp [SensorTypes.PRSNC_SENS],
      show ((104 : Nat) = SensorTypes.TEMP_SENS.type) = False by simp [SensorTypes.TEMP_SENS],
      show ((104 : Nat) = SensorTypes.HUM_SENS.type) = True by simp [SensorTypes.HUM_SENS],
      if_false, if_true,
      show SensorTypes.HUM_SENS.signed = false from rfl,
      show SensorTypes.HUM_SENS.precision = 10 from rfl,
      show SensorTypes.HUM_SENS.bytes = 2 from rfl,
      show (2 / 3 : Nat) = 0 from rfl,
      chanStr, hval, decodeValue_index, VState.mk.injEq,
      show ("humidity" : String) ++ "_" = "humidity_" from rfl, true_and, and_true]
    simp [recVal, recKey, thirdDivisor,
      show ("humidity" : String) ++ "_" = "humidity_" from rfl]
  · have hlen2 : bs.length = 6 := hlen
    have htype : (pre ++ (113 :: c :: bs) ++ post).getD pre.length 0 = 113 := by
      rw [List.append_assoc, List.getD_append_right pre _ 0 pre.length le_rfl]
      simp
    have hchn : (pre ++ (113 :: c :: bs) ++ post)[pre.length + 1]? = some c := by
      rw [List.append_assoc, List.getElem?_append_right (by omega)]
      simp
    have hread : ∀ k, k < 6 →
        (pre ++ (113 :: c :: bs) ++ post).getD (pre.length + 2 + k) 0 = bs.getD (0 + k) 0 := by
      intro k hk
      rw [List.append_assoc, List.getD_append_right pre _ 0 _ (by omega)]
      have h2k : pre.length + 2 + k - pre.length = k + 1 + 1 := by omega
      rw [h2k]
      simp only [List.cons_append, List.getD_cons_succ, Nat.zero_add]
      exact List.getD_append _ _ _ _ (by omega)
    have hvalX : (decodeValue (pre ++ (113 :: c :: bs) ++ post) (pre.length + 2) true 1000 2).value =
        (decodeValue bs 0 true 1000 2).value :=
      decodeValue_congr _ _ _ _ true 1000 2 (fun k hk => hread k (by omega))
    have hvalY : (decodeValue (pre ++ (113 :: c :: bs) ++ post) (pre.length + 2 + 2) true 1000 2).value =
        (decodeValue bs 2 true 1000 2).value := by
      refine decodeValue_congr _ _ _ _ true 1000 2 (fun k hk => ?_)
      have h1 := hread (2 + k) (by omega)
      have e1 : pre.length + 2 + (2 + k) = pre.length + 2 + 2 + k := by omega
      have e2 : (0 : Nat) + (2 + k) = 2 + k := by omega
      rw [e1, e2] at h1
      exact h1
    have hvalZ : (decodeValue (pre ++ (113 :: c :: bs) ++ post) (pre.length + 2 + 2 + 2) true 1000 2).value =
        (decodeValue bs (2 + 2) true 1000 2).value := by
      refine decodeValue_congr _ _ _ _ true 1000 2 (fun k hk => ?_)
      have h1 := hread (2 + 2 + k) (by omega)
      have e1 : pre.length + 2 + (2 + 2 + k) = pre.length + 2 + 2 + 2 + k := by omega
      have e2 : (0 : Nat) + (2 + 2 + k) = 2 + 2 + k := by omega
      rw [e1, e2] at h1
      exact h1
    simp only [stepRecord, htype, hchn,
      show ((113 : Nat) = SensorTypes.DIG_IN.type) = False by simp [SensorTypes.DIG_IN],
      show ((113 : Nat) = SensorTypes.DIG_OUT.type) = False by simp [SensorTypes.DIG_OUT],
      show ((113 : Nat) = SensorTypes.ANL_IN.type) = False by simp [SensorTypes.ANL_IN],
      show ((113 : Nat) = SensorTypes.ANL_OUT.type) = False by simp [SensorTypes.ANL_OUT],
      show ((113 : Nat) = SensorTypes.ILLUM_SENS.type) = False by simp [SensorTypes.ILLUM_SENS],
      show ((113 : Nat) = SensorTypes.PRSNC_SENS.type) = False by simp [SensorTypes.PRSNC_SENS],
      show ((113 : Nat) = SensorTypes.TEMP_SENS.type) = False by simp [SensorTypes.TEMP_SENS],
      show ((113 : Nat) = SensorTypes.HUM_SENS.type) = False by simp [SensorTypes.HUM_SENS],
      show ((113 : Nat) = SensorTypes.ACCRM_SENS.type) = True by simp [SensorTypes.ACCRM_SENS],
      if_false, if_true,
      show SensorTypes.ACCRM_SENS.signed = true from rfl,
      show SensorTypes.ACCRM_SENS.precision = 1000 from rfl,
      show SensorTypes.ACCRM_SENS.bytes = 6 from rfl,
      show (6 / 3 : Nat) = 2 from rfl,
      chanStr, hvalX, hvalY, hvalZ, decodeValue_index, VState.mk.injEq,
      show ("accelerometer" : String) ++ "_" = "accelerometer_" from rfl, true_and, and_true]
    simp [recVal, recKey, thirdDivisor,
      show ("accelerometer" : String) ++ "_" = "accelerometer_" from rfl]
  · have hlen2 : bs.length = 2 := hlen
    have htype : (pre ++ (115 :: c :: bs) ++ post).getD pre.length 0 = 115 := by
      rw [List.append_assoc, List.getD_append_right pre _ 0 pre.length le_rfl]
      simp
    have hchn : (pre ++ (115 :: c :: bs) ++ post)[pre.length + 1]? = some c := by
      rw [List.append_assoc, List.getElem?_append_right (by omega)]
      simp
    have hread : ∀ k, k < 2 →
        (pre ++ (115 :: c :: bs) ++ post).getD (pre.length + 2 + k) 0 = bs.getD (0 + k) 0 := by
      intro k hk
      rw [List.append_assoc, List.getD_append_right pre _ 0 _ (by omega)]
      have h2k : pre.length + 2 + k - pre.length = k + 1 + 1 := by omega
      rw [h2k]
      simp only [List.cons_append, List.getD_cons_succ, Nat.zero_add]
      exact List.getD_append _ _ _ _ (by omega)
    have hval : (decodeValue (pre ++ (115 :: c :: bs) ++ post) (pre.length + 2) false 10 2).value =
        (decodeValue bs 0 false 10 2).value :=
      decodeValue_congr _ _ _ _ false 10 2 hread
    simp only [stepRecord, htype, hchn,
      show ((115 : Nat) = SensorTypes.DIG_IN.type) = False by simp [SensorTypes.DIG_IN],
      show ((115 : Nat) = SensorTypes.DIG_OUT.type) = False by simp [SensorTypes.DIG_OUT],
      show ((115 : Nat) = SensorTypes.ANL_IN.type) = False by simp [SensorTypes.ANL_IN],
      show ((115 : Nat) = SensorTypes.ANL_OUT.type) = False by simp [SensorTypes.ANL_OUT],
      show ((115 : Nat) = SensorTypes.ILLUM_SENS.type) = False by simp [SensorTypes.ILLUM_SENS],
      show ((115 : Nat) = SensorTypes.PRSNC_SENS.type) = False by simp [SensorTypes.PRSNC_SENS],
      show ((115 : Nat) = SensorTypes.TEMP_SENS.type) = False by simp [SensorTypes.TEMP_SENS],
      show ((115 : Nat) = SensorTypes.HUM_SENS.type) = False by simp [SensorTypes.HUM_SENS],
      show ((115 : Nat) = SensorTypes.ACCRM_SENS.type) = False by simp [SensorTypes.ACCRM_SENS],
      show ((115 : Nat) = SensorTypes.BARO_SENS.type) = True by simp [SensorTypes.BARO_SENS],
      if_false, if_true,
      show SensorTypes.BARO_SENS.signed = false from rfl,
      show SensorTypes.BARO_SENS.precision = 10 from rfl,
      show SensorTypes.BARO_SENS.bytes = 2 from rfl,
      show (2 / 3 : Nat) = 0 from rfl,
      chanStr, hval, decodeValue_index, VState.mk.injEq,
      show ("barometer" : String) ++ "_" = "barometer_" from rfl, true_and, and_true]
    simp [recVal, recKey, thirdDivisor,
      show ("barometer" : String) ++ "_" = "barometer_" from rfl]
  · have hlen2 : bs.length = 6 := hlen
    have htype : (pre ++ (134 :: c :: bs) ++ post).getD pre.length 0 = 134 := by
      rw [List.append_assoc, List.getD_append_right pre _ 0 pre.length le_rfl]
      simp
    have hchn : (pre ++ (134 :: c :: bs) ++ post)[pre.length + 1]? = some c := by
      rw [List.append_assoc, List.getElem?_append_right (by omega)]
      simp
    have hread : ∀ k, k < 6 →
        (pre ++ (134 :: c :: bs) ++ post).getD (pre.length + 2 + k) 0 = bs.getD (0 + k) 0 := by
      intro k hk
      rw [List.append_assoc, List.getD_append_right pre _ 0 _ (by omega)]
      have h2k : pre.length + 2 + k - pre.length = k + 1 + 1 := by omega
      rw [h2k]
      simp only [List.cons_append, List.getD_cons_succ, Nat.zero_add]
      exact List.getD_append _ _ _ _ (by omega)
    have hvalX : (decodeValue (pre ++ (134 :: c :: bs) ++ post) (pre.length + 2) true 100 2).value =
        (decodeValue bs 0 true 100 2).value :=
      decodeValue_congr _ _ _ _ true 100 2 (fun k hk => hread k (by omega))
    have hvalY : (decodeValue (pre ++ (134 :: c :: bs) ++ post) (pre.length + 2 + 2) true 100 2).value =
        (decodeValue bs 2 true 100 2).value := by
      refine decodeValue_congr _ _ _ _ true 100 2 (fun k hk => ?_)
      have h1 := hread (2 + k) (by omega)
      have e1 : pre.length + 2 + (2 + k) = pre.length + 2 + 2 + k := by omega
      have e2 : (0 : Nat) + (2 + k) = 2 + k := by omega
      rw [e1, e2] at h1
      exact h1
    have hvalZ : (decodeValue (pre ++ (134 :: c :: bs) ++ post) (pre.length + 2 + 2 + 2) true 100 2).value =
        (decodeValue bs (2 + 2) true 100 2).value := by
      refine decodeValue_congr _ _ _ _ true 100 2 (fun k hk => ?_)
      have h1 := hread (2 + 2 + k) (by omega)
      have e1 : pre.length + 2 + (2 + 2 + k) = pre.length + 2 + 2 + 2 + k := by omega
      have e2 : (0 : Nat) + (2 + 2 + k) = 2 + 2 + k := by omega
      rw [e1, e2] at h1
      exact h1
    simp only [stepRecord, htype, hchn,
      show ((134 : Nat) = SensorTypes.DIG_IN.type) = False by simp [SensorTypes.DIG_IN],
      show ((134 : Nat) = SensorTypes.DIG_OUT.type) = False by simp [SensorTypes.DIG_OUT],
      show ((134 : Nat) = SensorTypes.ANL_IN.type) = False by simp [SensorTypes.ANL_IN],
      show ((134 : Nat) = SensorTypes.ANL_OUT.type) = False by simp [SensorTypes.ANL_OUT],
      show ((134 : Nat) = SensorTypes.ILLUM_SENS.type) = False by simp [SensorTypes.ILLUM_SENS],
      show ((134 : Nat) = SensorTypes.PRSNC_SENS.type) = False by simp [SensorTypes.PRSNC_SENS],
      show ((134 : Nat) = SensorTypes.TEMP_SENS.type) = False by simp [SensorTypes.TEMP_SENS],
      show ((134 : Nat) = SensorTypes.HUM_SENS.type) = False by simp [SensorTypes.HUM_SENS],
      show ((134 : Nat) = SensorTypes.ACCRM_SENS.type) = False by simp [SensorTypes.ACCRM_SENS],
      show ((134 : Nat) = SensorTypes.BARO_SENS.type) = False by simp [SensorTypes.BARO_SENS],
      show ((134 : Nat) = SensorTypes.GYRO_SENS.type) = True by simp [SensorTypes.GYRO_SENS],
      if_false, if_true,
      show SensorTypes.GYRO_SENS.signed = true from rfl,
      show SensorTypes.GYRO_SENS.precision = 100 from rfl,
      show SensorTypes.GYRO_SENS.bytes = 6 from rfl,
      show (6 / 3 : Nat) = 2 from rfl,
      chanStr, hvalX, hvalY, hvalZ, decodeValue_index, VState.mk.injEq,
      show ("gyroscope" : String) ++ "_" = "gyroscope_" from rfl, true_and, and_true]
    simp [recVal, recKey, thirdDivisor,
      show ("gyroscope" : String) ++ "_" = "gyroscope_" from rfl]
  · have hlen2 : bs.length = 12 := hlen
    have htype : (pre ++ (136 :: c :: bs) ++ post).getD pre.length 0 = 136 := by
      rw [List.append_assoc, List.getD_append_right pre _ 0 pre.length le_rfl]
      simp
    have hchn : (pre ++ (136 :: c :: bs) ++ post)[pre.length + 1]? = some c := by
      rw [List.append_assoc, List.getElem?_append_right (by omega)]
      simp
    have hread : ∀ k, k < 12 →
        (pre ++ (136 :: c :: bs) ++ post).getD (pre.length + 2 + k) 0 = bs.getD (0 + k) 0 := by
      intro k hk
      rw [List.append_assoc, List.getD_append_right pre _ 0 _ (by omega)]
      have h2k : pre.length + 2 + k - pre.length = k + 1 + 1 := by omega
      rw [h2k]
      simp only [List.cons_append, List.getD_cons_succ, Nat.zero_add]
      exact List.getD_append _ _ _ _ (by omega)
    have hvalX : (decodeValue (pre ++ (136 :: c :: bs) ++ post) (pre.length + 2) true 10000 4).value =
        (decodeValue bs 0 true 10000 4).value :=
      decodeValue_congr _ _ _ _ true 10000 4 (fun k hk => hread k (by omega))
    have hvalY : (decodeValue (pre ++ (136 :: c :: bs) ++ post) (pre.length + 2 + 4) true 10000 4).value =
        (decodeValue bs 4 true 10000 4).value := by
      refine decodeValue_congr _ _ _ _ true 10000 4 (fun k hk => ?_)
      have h1 := hread (4 + k) (by omega)
      have e1 : pre.length + 2 + (4 + k) = pre.length + 2 + 4 + k := by omega
      have e2 : (0 : Nat) + (4 + k) = 4 + k := by omega
      rw [e1, e2] at h1
      exact h1
    have hvalZ : (decodeValue (pre ++ (136 :: c :: bs) ++ post) (pre.length + 2 + 4 + 4) true (10000 / 100 : Rat) 4).value =
        (decodeValue bs (4 + 4) true (10000 / 100 : Rat) 4).value := by
      refine decodeValue_congr _ _ _ _ true (10000 / 100 : Rat) 4 (fun k hk => ?_)
      have h1 := hread (4 + 4 + k) (by omega)
      have e1 : pre.length + 2 + (4 + 4 + k) = pre.length + 2 + 4 + 4 + k := by omega
      have e2 : (0 : Nat) + (4 + 4 + k) = 4 + 4 + k := by omega
      rw [e1, e2] at h1
      exact h1
    simp only [stepRecord, htype, hchn,
      show ((136 : Nat) = SensorTypes.DIG_IN.type) = False by simp [SensorTypes.DIG_IN],
      show ((136 : Nat) = SensorTypes.DIG_OUT.type) = False by simp [SensorTypes.DIG_OUT],
      show ((136 : Nat) = SensorTypes.ANL_IN.type) = False by simp [SensorTypes.ANL_IN],
      show ((136 : Nat) = SensorTypes.ANL_OUT.type) = False by simp [SensorTypes.ANL_OUT],
      show ((136 : Nat) = SensorTypes.ILLUM_SENS.type) = False by simp [SensorTypes.ILLUM_SENS],
      show ((136 : Nat) = SensorTypes.PRSNC_SENS.type) = False by simp [SensorTypes.PRSNC_SENS],
      show ((136 : Nat) = SensorTypes.TEMP_SENS.type) = False by simp [SensorTypes.TEMP_SENS],
      show ((136 : Nat) = SensorTypes.HUM_SENS.type) = False by simp [SensorTypes.HUM_SENS],
      show ((136 : Nat) = SensorTypes.ACCRM_SENS.type) = False by simp [SensorTypes.ACCRM_SENS],
      show ((136 : Nat) = SensorTypes.BARO_SENS.type) = False by simp [SensorTypes.BARO_SENS],
      show ((136 : Nat) = SensorTypes.GYRO_SENS.type) = False by simp [SensorTypes.GYRO_SENS],
      show ((136 : Nat) = SensorTypes.GPS_LOC.type) = True by simp [SensorTypes.GPS_LOC],
      if_false, if_true,
      show SensorTypes.GPS_LOC.signed = true from rfl,
      show SensorTypes.GPS_LOC.precision = 10000 from rfl,
      show SensorTypes.GPS_LOC.bytes = 12 from rfl,
      show (12 / 3 : Nat) = 4 from rfl,
      chanStr, hvalX, hvalY, hvalZ, decodeValue_index, VState.mk.injEq,
      show ("gps" : String) ++ "_" = "gps_" from rfl, true_and, and_true]
    simp [recVal, recKey, thirdDivisor,
      show ("gps" : String) ++ "_" = "gps_" from rfl]

/-- Walking a prefix of consecutive well-formed records consumes their
bytes and stores their keyed values in input order. -/
lemma walk_encodeRecs (rs : List Record) (pre post : List Nat) (s : VState)
    (fuel : Nat) (hwf : ∀ r ∈ rs, r.wf) (hi : s.i = pre.length)
    (hf : (pre ++ encodeRecs rs ++ post).length - s.i ≤ fuel) :
    walk fuel (pre ++ encodeRecs rs ++ post) s =
      walk fuel (pre ++ encodeRecs rs ++ post)
        ⟨pre.length + (encodeRecs rs).length, insertRecs rs s.entries, s.errors⟩ := by
  induction rs generalizing pre s with
  | nil =>
    obtain ⟨si, entries0, errors0⟩ := s
    simp only at hi
    subst hi
    simp [encodeRecs, insertRecs]
  | cons r rs ih =>
    have hassoc : pre ++ encodeRecs (r :: rs) ++ post =
        (pre ++ encodeRec r) ++ encodeRecs rs ++ post := by
      simp [encodeRecs, List.append_assoc]
    have hwfr : r.wf := hwf r (List.mem_cons_self r rs)
    have hencLen : (encodeRec r).length = 2 + r.desc.width := by
      simp [encodeRec, hwfr.2.2.1]
      omega
    have hlt : s.i < (pre ++ encodeRecs (r :: rs) ++ post).length := by
      simp only [List.length_append, hi]
      simp only [encodeRecs, List.length_append]
      omega
    have hf2 : (pre ++ encodeRecs (r :: rs) ++ post).length - s.i ≤ fuel := hf
    rw [walk_step_of fuel _ s hlt hf2]
    rw [hassoc] at hlt hf2 ⊢
    have hstep : stepRecord ((pre ++ encodeRec r) ++ encodeRecs rs ++ post) s =
        ⟨pre.length + 2 + r.desc.width,
          objInsert s.entries (recKey r.desc r.chan) (recVal r.desc r.payload),
          s.errors⟩ := by
      have := stepRecord_encode pre (encodeRecs rs ++ post) r s hwfr hi
      rw [← List.append_assoc] at this
      exact this
    rw [hstep]
    have hi2 : (⟨pre.length + 2 + r.desc.width,
        objInsert s.entries (recKey r.desc r.chan) (recVal r.desc r.payload),
        s.errors⟩ : VState).i = (pre ++ encodeRec r).length := by
      simp only [List.length_append, hencLen]
      omega
    have hf3 : ((pre ++ encodeRec r) ++ encodeRecs rs ++ post).length -
        (⟨pre.length + 2 + r.desc.width,
          objInsert s.entries (recKey r.desc r.chan) (recVal r.desc r.payload),
          s.errors⟩ : VState).i ≤ fuel := by
      simp only [List.length_append, hencLen] at hf2 ⊢
      simp only [hi] at hf2
      omega
    rw [ih (pre ++ encodeRec r) _ (fun q hq => hwf q (List.mem_cons_of_mem r hq))
      hi2 hf3]
    have hieq : (pre ++ encodeRec r).length + (encodeRecs rs).length =
        pre.length + (encodeRecs (r :: rs)).length := by
      simp only [List.length_append, encodeRecs, hencLen]
      omega
    have hentries : insertRecs rs
        (objInsert s.entries (recKey r.desc r.chan) (recVal r.desc r.payload)) =
        insertRecs (r :: rs) s.entries := rfl
    rw [hieq, hentries]

/-- Effect of one loop iteration on a type id outside the registry: the
unknown-type error is stored and the index jumps past the end of the
buffer. -/
lemma stepRecord_unknown (bytes : List Nat) (s : VState) (t : Nat)
    (htype : bytes.getD s.i 0 = t) (hunk : ∀ d ∈ catalog, t ≠ d.tid) :
    stepRecord bytes s =
      ⟨bytes.length, s.entries, ["Unknown type: " ++ toString t]⟩ := by
  have h1 : ¬ (t = SensorTypes.DIG_IN.type) := by
    have hm : (⟨0, "digital", false, 1, 1, false⟩ : Desc) ∈ catalog := by
      simp [catalog]
    have hz := hunk _ hm
    simpa [SensorTypes.DIG_IN] using hz
  have h2 : ¬ (t = SensorTypes.DIG_OUT.type) := by
    have hm : (⟨1, "digital", false, 1, 1, false⟩ : Desc) ∈ catalog := by
      simp [catalog]
    have hz := hunk _ hm
    simpa [SensorTypes.DIG_OUT] using hz
  have h3 : ¬ (t = SensorTypes.ANL_IN.type) := by
    have hm : (⟨2, "analog", true, 100, 2, false⟩ : Desc) ∈ catalog := by
      simp [catalog]
    have hz := hunk _ hm
    simpa [SensorTypes.ANL_IN] using hz
  have h4 : ¬ (t = SensorTypes.ANL_OUT.type) := by
    have hm : (⟨3, "analog", true, 100, 2, false⟩ : Desc) ∈ catalog := by
      simp [catalog]
    have hz := hunk _ hm
    simpa [SensorTypes.ANL_OUT] using hz
  have h5 : ¬ (t = SensorTypes.ILLUM_SENS.type) := by
    have hm : (⟨101, "illumination", false, 1, 2, false⟩ : Desc) ∈ catalog := by
      simp [catalog]
    have hz := hunk _ hm
    simpa [SensorTypes.ILLUM_SENS] using hz
  have h6 : ¬ (t = SensorTypes.PRSNC_SENS.type) := by
    have hm : (⟨102, "presence", false, 1, 1, false⟩ : Desc) ∈ catalog := by
      simp [catalog]
    have hz := hunk _ hm
    simpa [SensorTypes.PRSNC_SENS] using hz
  have h7 : ¬ (t = SensorTypes.TEMP_SENS.type) := by
    have hm : (⟨103, "temperature", true, 10, 2, false⟩ : Desc) ∈ catalog := by
      simp [catalog]
    have hz := hunk _ hm
    simpa [SensorTypes.TEMP_SENS] using hz
  have h8 : ¬ (t = SensorTypes.HUM_SENS.type) := by
    have hm : (⟨104, "humidity", false, 10, 2, false⟩ : Desc) ∈ catalog := by
      simp [catalog]
    have hz := hunk _ hm
    simpa [SensorTypes.HUM_SENS] using hz
  have h9 : ¬ (t = SensorTypes.ACCRM_SENS.type) := by
    have hm : (⟨113, "accelerometer", true, 1000, 6, true⟩ : Desc) ∈ catalog := by
      simp [catalog]
    have hz := hunk _ hm
    simpa [SensorTypes.ACCRM_SENS] using hz
  have h10 : ¬ (t = SensorTypes.BARO_SENS.type) := by
    have hm : (⟨115, "barometer", false, 10, 2, false⟩ : Desc) ∈ catalog := by
      simp [catalog]
    have hz := hunk _ hm
    simpa [SensorTypes.BARO_SENS] using hz
  have h11 : ¬ (t = SensorTypes.GYRO_SENS.type) := by
    have hm : (⟨134, "gyroscope", true, 100, 6, true⟩ : Desc) ∈ catalog := by
      simp [catalog]
    have hz := hunk _ hm
    simpa [SensorTypes.GYRO_SENS] using hz
  have h12 : ¬ (t = SensorTypes.GPS_LOC.type) := by
    have hm : (⟨136, "gps", true, 10000, 12, true⟩ : Desc) ∈ catalog := by
      simp [catalog]
    have hz := hunk _ hm
    simpa [SensorTypes.GPS_LOC] using hz
  simp only [stepRecord, htype]
  rw [if_neg h1, if_neg h2, if_neg h3, if_neg h4, if_neg h5, if_neg h6, if_neg h7, if_neg h8, if_neg h9, if_neg h10, if_neg h11, if_neg h12]

/-- C10: For every input, the `decoder_version` field of `decodeUplink`'s
result equals the input's `fPort` value verbatim, including when the version
is unsupported and no fields are decoded. -/
theorem decoder_version_echoes_fPort (input : UplinkInput) :
    (decodeUplink input).decoder_version = input.fPort := rfl

/-- C8: For every input whose version selector is not 1, `decodeUplink`
surfaces the unsupported-version error string and produces no decoded sensor
fields: the data object's property list is empty. -/
theorem unsupported_version_no_fields (version : Int) (bytes : List Nat)
    (h : version ≠ 1) :
    decodeUplink ⟨version, bytes⟩ =
      ⟨version, ⟨[], ["Payload Version not supported: " ++ toString version]⟩,
        [], []⟩ := by
  simp [decodeUplink, h]

theorem unsupported_version_no_fields_witness :
    decodeUplink ⟨2, [103, 1, 44, 1]⟩ =
      ⟨2, ⟨[], ["Payload Version not supported: " ++ toString (2 : Int)]⟩,
        [], []⟩ :=
  unsupported_version_no_fields 2 [103, 1, 44, 1] (by decide)

/-- C9: For every finite input byte array the decoding loop terminates:
fuel `bytes.length` already reaches the loop's final state, any larger fuel
computes the same state, and in that state the loop guard `i < bytes.length`
has failed. -/
theorem walk_terminates (bytes : List Nat) (fuel : Nat)
    (hf : bytes.length ≤ fuel) :
    walk fuel bytes ⟨0, [], []⟩ = walk bytes.length bytes ⟨0, [], []⟩ ∧
      ¬ (walk fuel bytes ⟨0, [], []⟩).i < bytes.length := by
  constructor
  · exact walk_fuel_irrel fuel bytes ⟨0, [], []⟩ bytes.length (by simpa using hf)
      (by simp)
  · exact walk_final fuel bytes ⟨0, [], []⟩ (by simpa using hf)

theorem walk_terminates_witness :
    walk 7 [103, 1, 44, 1] ⟨0, [], []⟩ =
        walk ([103, 1, 44, 1] : List Nat).length [103, 1, 44, 1] ⟨0, [], []⟩ ∧
      ¬ (walk 7 [103, 1, 44, 1] ⟨0, [], []⟩).i < ([103, 1, 44, 1] : List Nat).length :=
  walk_terminates [103, 1, 44, 1] 7 (by norm_num)

/-- Full behavior of the decoder on records followed by an unregistered
type id: the walk stops at the unknown id. -/
lemma decodeUplink_unknown (rs : List Record) (t : Nat) (rest : List Nat)
    (hwf : ∀ r ∈ rs, r.wf) (hunk : ∀ d ∈ catalog, t ≠ d.tid) :
    decodeUplink ⟨1, encodeRecs rs ++ t :: rest⟩ =
      ⟨1, ⟨insertRecs rs [], ["Unknown type: " ++ toString t]⟩, [], []⟩ := by
  have hb : encodeRecs rs ++ t :: rest = [] ++ encodeRecs rs ++ (t :: rest) := by
    simp
  have hlen : ([] ++ encodeRecs rs ++ (t :: rest)).length =
      (encodeRecs rs).length + (rest.length + 1) := by
    simp
  simp only [decodeUplink, processPayloadVersion_ONE, if_pos]
  rw [hb]
  rw [walk_encodeRecs rs [] (t :: rest) ⟨0, [], []⟩ _ hwf rfl (by omega)]
  have hi1 : (([] : List Nat).length + (encodeRecs rs).length) =
      (encodeRecs rs).length := by simp
  have hlt : (⟨([] : List Nat).length + (encodeRecs rs).length,
      insertRecs rs [], []⟩ : VState).i <
      ([] ++ encodeRecs rs ++ (t :: rest)).length := by
    simp only [hi1, hlen]
    omega
  rw [walk_step_of _ _ _ hlt (by omega)]
  have htype : ([] ++ encodeRecs rs ++ (t :: rest)).getD
      (⟨([] : List Nat).length + (encodeRecs rs).length,
        insertRecs rs [], []⟩ : VState).i 0 = t := by
    simp only [hi1, List.nil_append]
    rw [List.getD_append_right _ _ 0 _ le_rfl]
    simp
  rw [stepRecord_unknown _ _ t htype hunk]
  rw [walk_stop _ _ _ (by simp)]

/-- C3: For every buffer built of well-formed records followed by a type id
outside the catalog (at a record boundary), decoding stops there: exactly
the records before the unknown type are in the output data, the error string
naming the offending id is recorded on the output object, and nothing after
the unknown type is decoded. -/
theorem unknown_type_halts_walk (rs : List Record) (t : Nat) (rest : List Nat)
    (hwf : ∀ r ∈ rs, r.wf) (hunk : ∀ d ∈ catalog, t ≠ d.tid) (ht : t < 256) :
    decodeUplink ⟨1, encodeRecs rs ++ t :: rest⟩ =
      ⟨1, ⟨insertRecs rs [], ["Unknown type: " ++ toString t]⟩, [], []⟩ :=
  decodeUplink_unknown rs t rest hwf hunk

theorem unknown_type_halts_walk_witness :
    decodeUplink ⟨1, encodeRecs [⟨⟨0, "digital", false, 1, 1, false⟩, 1, [1]⟩,
        ⟨⟨103, "temperature", true, 10, 2, false⟩, 2, [44, 1]⟩] ++
        200 :: [4, 1]⟩ =
      ⟨1, ⟨insertRecs [⟨⟨0, "digital", false, 1, 1, false⟩, 1, [1]⟩,
        ⟨⟨103, "temperature", true, 10, 2, false⟩, 2, [44, 1]⟩] [],
        ["Unknown type: " ++ toString (200 : Nat)]⟩, [], []⟩ :=
  unknown_type_halts_walk
    [⟨⟨0, "digital", false, 1, 1, false⟩, 1, [1]⟩,
     ⟨⟨103, "temperature", true, 10, 2, false⟩, 2, [44, 1]⟩]
    200 [4, 1] (by decide) (by decide) (by decide)

/-- The walker's locally-decoded scalar value agrees with the claim-side
formula, for every registered scalar kind. -/
lemma recVal_scalar (d : Desc) (hd : d ∈ catalog) (hscalar : d.isVec = false)
    (bs : List Nat) (hlen : bs.length = d.width) (hbs : ∀ b ∈ bs, b < 256) :
    recVal d bs = .num (claimScalarValue d bs) := by
  fin_cases hd <;> dsimp only at hlen hscalar ⊢
  · obtain ⟨b0, rfl⟩ := List.length_eq_one.mp hlen
    have hb0 : b0 < 256 := hbs b0 (by simp)
    rw [show recVal (⟨0, "digital", false, 1, 1, false⟩ : Desc) [b0] =
        .num ((decodeValue [b0] 0 false 1 1).value) from rfl]
    rw [decodeValue_width_one [b0] 0 false 1 b0 rfl hb0]
    norm_num [claimScalarValue, leVal]
  · obtain ⟨b0, rfl⟩ := List.length_eq_one.mp hlen
    have hb0 : b0 < 256 := hbs b0 (by simp)
    rw [show recVal (⟨1, "digital", false, 1, 1, false⟩ : Desc) [b0] =
        .num ((decodeValue [b0] 0 false 1 1).value) from rfl]
    rw [decodeValue_width_one [b0] 0 false 1 b0 rfl hb0]
    norm_num [claimScalarValue, leVal]
  · obtain ⟨b0, b1, rfl⟩ := List.length_eq_two.mp hlen
    have hb0 : b0 < 256 := hbs b0 (by simp)
    have hb1 : b1 < 256 := hbs b1 (by simp)
    rw [show recVal (⟨2, "analog", true, 100, 2, false⟩ : Desc) [b0, b1] =
        .num ((decodeValue [b0, b1] 0 true 100 2).value) from rfl]
    rw [decodeValue_width_two [b0, b1] 0 true 100 b0 b1 rfl rfl hb0 hb1]
    norm_num [claimScalarValue, leVal]
  · obtain ⟨b0, b1, rfl⟩ := List.length_eq_two.mp hlen
    have hb0 : b0 < 256 := hbs b0 (by simp)
    have hb1 : b1 < 256 := hbs b1 (by simp)
    rw [show recVal (⟨3, "analog", true, 100, 2, false⟩ : Desc) [b0, b1] =
        .num ((decodeValue [b0, b1] 0 true 100 2).value) from rfl]
    rw [decodeValue_width_two [b0, b1] 0 true 100 b0 b1 rfl rfl hb0 hb1]
    norm_num [claimScalarValue, leVal]
  · obtain ⟨b0, b1, rfl⟩ := List.length_eq_two.mp hlen
    have hb0 : b0 < 256 := hbs b0 (by simp)
    have hb1 : b1 < 256 := hbs b1 (by simp)
    rw [show recVal (⟨101, "illumination", false, 1, 2, false⟩ : Desc) [b0, b1] =
        .num ((decodeValue [b0, b1] 0 false 1 2).value) from rfl]
    rw [decodeValue_width_two [b0, b1] 0 false 1 b0 b1 rfl rfl hb0 hb1]
    norm_num [claimScalarValue, leVal]
  · obtain ⟨b0, rfl⟩ := List.length_eq_one.mp hlen
    have hb0 : b0 < 256 := hbs b0 (by simp)
    rw [show recVal (⟨102, "presence", false, 1, 1, false⟩ : Desc) [b0] =
        .num ((decodeValue [b0] 0 false 1 1).value) from rfl]
    rw [decodeValue_width_one [b0] 0 false 1 b0 rfl hb0]
    norm_num [claimScalarValue, leVal]
  · obtain ⟨b0, b1, rfl⟩ := List.length_eq_two.mp hlen
    have hb0 : b0 < 256 := hbs b0 (by simp)
    have hb1 : b1 < 256 := hbs b1 (by simp)
    rw [show recVal (⟨103, "temperature", true, 10, 2, false⟩ : Desc) [b0, b1] =
        .num ((decodeValue [b0, b1] 0 true 10 2).value) from rfl]
    rw [decodeValue_width_two [b0, b1] 0 true 10 b0 b1 rfl rfl hb0 hb1]
    norm_num [claimScalarValue, leVal]
  · obtain ⟨b0, b1, rfl⟩ := List.length_eq_two.mp hlen
    have hb0 : b0 < 256 := hbs b0 (by simp)
    have hb1 : b1 < 256 := hbs b1 (by simp)
    rw [show recVal (⟨104, "humidity", false, 10, 2, false⟩ : Desc) [b0, b1] =
        .num ((decodeValue [b0, b1] 0 false 10 2).value) from rfl]
    rw [decodeValue_width_two [b0, b1] 0 false 10 b0 b1 rfl rfl hb0 hb1]
    norm_num [claimScalarValue, leVal]
  · exact absurd hscalar (by decide)
  · obtain ⟨b0, b1, rfl⟩ := List.length_eq_two.mp hlen
    have hb0 : b0 < 256 := hbs b0 (by simp)
    have hb1 : b1 < 256 := hbs b1 (by simp)
    rw [show recVal (⟨115, "barometer", false, 10, 2, false⟩ : Desc) [b0, b1] =
        .num ((decodeValue [b0, b1] 0 false 10 2).value) from rfl]
    rw [decodeValue_width_two [b0, b1] 0 false 10 b0 b1 rfl rfl hb0 hb1]
    norm_num [claimScalarValue, leVal]
  · exact absurd hscalar (by decide)
  · exact absurd hscalar (by decide)

/-- C1: For every registered scalar sensor type and every minimal buffer
`[type_id, channel, <width bytes>]`, `decodeUplink` produces exactly one
data entry keyed `"<word>_<channel>"` whose value is the little-endian
unsigned integer of the width bytes, two's-complement adjusted when the
type is signed, divided exactly by the type's divisor. -/
theorem scalar_record_decode_correct (d : Desc) (hd : d ∈ catalog)
    (hscalar : d.isVec = false) (ch : Nat) (hch : ch < 256) (bs : List Nat)
    (hlen : bs.length = d.width) (hbs : ∀ b ∈ bs, b < 256) :
    decodeUplink ⟨1, d.tid :: ch :: bs⟩ =
      ⟨1, ⟨[(d.label ++ "_" ++ toString ch, .num (claimScalarValue d bs))],
        []⟩, [], []⟩ := by
  have hb : d.tid :: ch :: bs = [] ++ encodeRecs [⟨d, ch, bs⟩] ++ [] := by
    simp [encodeRecs, encodeRec]
  have hwfr : (⟨d, ch, bs⟩ : Record).wf := ⟨hd, hch, hlen, hbs⟩
  simp only [decodeUplink, processPayloadVersion_ONE, if_pos]
  rw [hb, walk_encodeRecs [⟨d, ch, bs⟩] [] [] ⟨0, [], []⟩ _
    (by simpa using hwfr) rfl (by simp)]
  rw [walk_stop _ _ _ (by simp)]
  rw [show insertRecs [⟨d, ch, bs⟩] [] = [(recKey d ch, recVal d bs)] from rfl]
  rw [recVal_scalar d hd hscalar bs hlen hbs]
  rfl

theorem scalar_record_decode_correct_witness :
    decodeUplink ⟨1, [103, 1, 44, 1]⟩ =
      ⟨1, ⟨[("temperature_1", .num (30 : ℚ))], []⟩, [], []⟩ := by
  have h := scalar_record_decode_correct ⟨103, "temperature", true, 10, 2, false⟩
    (by decide) rfl 1 (by decide) [44, 1] (by decide) (by decide)
  rw [show (⟨1, [103, 1, 44, 1]⟩ : UplinkInput) =
    ⟨1, (⟨103, "temperature", true, 10, 2, false⟩ : Desc).tid :: 1 :: [44, 1]⟩
    from rfl, h]
  norm_num [claimScalarValue, leVal]
  rfl

/-- C6: For every Vector3 descriptor (accelerometer, gyroscope, GPS) and
every minimal buffer `[type_id, channel, <width bytes>]`, the walker decodes
three consecutive sub-fields of `width / 3` bytes each, mapped in input
order to x, y, z, with the descriptor's signed flag for all three; the
first two use the descriptor's divisor and the third uses `divisor / 100`
exactly for GPS (type id 136) and the shared divisor otherwise. -/
theorem vector_record_decode_correct (d : Desc) (hd : d ∈ catalog)
    (hvec : d.isVec = true) (ch : Nat) (hch : ch < 256) (bs : List Nat)
    (hlen : bs.length = d.width) (hbs : ∀ b ∈ bs, b < 256) :
    decodeUplink ⟨1, d.tid :: ch :: bs⟩ =
      ⟨1, ⟨[(d.label ++ "_" ++ toString ch,
        .vec3 (decodeValue bs 0 d.sgn d.divisor (d.width / 3)).value
          (decodeValue bs (d.width / 3) d.sgn d.divisor (d.width / 3)).value
          (decodeValue bs (2 * (d.width / 3)) d.sgn
            (if d.tid = 136 then d.divisor / 100 else d.divisor)
            (d.width / 3)).value)], []⟩, [], []⟩ := by
  have hb : d.tid :: ch :: bs = [] ++ encodeRecs [⟨d, ch, bs⟩] ++ [] := by
    simp [encodeRecs, encodeRec]
  have hwfr : (⟨d, ch, bs⟩ : Record).wf := ⟨hd, hch, hlen, hbs⟩
  simp only [decodeUplink, processPayloadVersion_ONE, if_pos]
  rw [hb, walk_encodeRecs [⟨d, ch, bs⟩] [] [] ⟨0, [], []⟩ _
    (by simpa using hwfr) rfl (by simp)]
  rw [walk_stop _ _ _ (by simp)]
  rw [show insertRecs [⟨d, ch, bs⟩] [] = [(recKey d ch, recVal d bs)] from rfl]
  simp only [recVal, thirdDivisor, if_pos hvec]
  rfl

theorem vector_record_decode_correct_witness :
    decodeUplink ⟨1, [136, 3, 2, 220, 7, 0, 2, 251, 255, 255, 184, 11, 0, 0]⟩ =
      ⟨1, ⟨[("gps_3", .vec3 (257537 / 5000 : ℚ) (-1279 / 10000 : ℚ) (30 : ℚ))],
        []⟩, [], []⟩ := by
  have h := vector_record_decode_correct ⟨136, "gps", true, 10000, 12, true⟩
    (by decide) rfl 3 (by decide) [2, 220, 7, 0, 2, 251, 255, 255, 184, 11, 0, 0]
    (by decide) (by decide)
  rw [show (⟨1, [136, 3, 2, 220, 7, 0, 2, 251, 255, 255, 184, 11, 0, 0]⟩ :
      UplinkInput) =
    ⟨1, (⟨136, "gps", true, 10000, 12, true⟩ : Desc).tid :: 3 ::
      [2, 220, 7, 0, 2, 251, 255, 255, 184, 11, 0, 0]⟩ from rfl, h]
  norm_num
  rw [decodeValue_width_four_signed
      [2, 220, 7, 0, 2, 251, 255, 255, 184, 11, 0, 0] 0 10000 2 220 7 0
      rfl rfl rfl rfl (by decide) (by decide) (by decide) (by decide),
    decodeValue_width_four_signed
      [2, 220, 7, 0, 2, 251, 255, 255, 184, 11, 0, 0] 4 10000 2 251 255 255
      rfl rfl rfl rfl (by decide) (by decide) (by decide) (by decide),
    decodeValue_width_four_signed
      [2, 220, 7, 0, 2, 251, 255, 255, 184, 11, 0, 0] 8 100 184 11 0 0
      rfl rfl rfl rfl (by decide) (by decide) (by decide) (by decide)]
  norm_num
  rfl

/-- C4 counterexample: errors produced during decoding do not appear in the
top-level `errors` field of `decodeUplink`'s result — that field is always
empty, and both the unsupported-profile and the unknown-type message are
stored on the `errors` key of the data object instead. -/
theorem errors_not_top_level_counterexample :
    (decodeUplink ⟨2, []⟩).errors = [] ∧
    (decodeUplink ⟨2, []⟩).data.errors =
      ["Payload Version not supported: " ++ toString (2 : Int)] ∧
    (decodeUplink ⟨1, [200, 4, 1]⟩).errors = [] ∧
    (decodeUplink ⟨1, [200, 4, 1]⟩).data.errors =
      ["Unknown type: " ++ toString (200 : Nat)] := by
  refine ⟨rfl, by norm_num [decodeUplink], rfl, ?_⟩
  have h := decodeUplink_unknown [] 200 [4, 1] (by simp) (by decide)
  simp only [encodeRecs, List.nil_append] at h
  rw [h]

/-- C4 amended: every error produced during decoding — unsupported profile
or unknown sensor type — appears in the `errors` key of the returned data
object, while the top-level `errors` and `warnings` fields are always
empty; the decoder itself is a total function and never throws. -/
theorem errors_collected_in_data_object (version : Int) (bytes : List Nat)
    (rs : List Record) (t : Nat) (rest : List Nat) :
    ((decodeUplink ⟨version, bytes⟩).errors = [] ∧
      (decodeUplink ⟨version, bytes⟩).warnings = []) ∧
    (version ≠ 1 → (decodeUplink ⟨version, bytes⟩).data.errors =
      ["Payload Version not supported: " ++ toString version]) ∧
    ((∀ r ∈ rs, r.wf) → (∀ d ∈ catalog, t ≠ d.tid) →
      ("Unknown type: " ++ toString t) ∈
        (decodeUplink ⟨1, encodeRecs rs ++ t :: rest⟩).data.errors) := by
  refine ⟨⟨rfl, rfl⟩, fun h => by simp [decodeUplink, h], fun hwf hunk => ?_⟩
  rw [decodeUplink_unknown rs t rest hwf hunk]
  simp

theorem errors_collected_in_data_object_witness :
    ((decodeUplink ⟨2, [1, 2]⟩).errors = [] ∧
      (decodeUplink ⟨2, [1, 2]⟩).warnings = []) ∧
    (decodeUplink ⟨2, [1, 2]⟩).data.errors =
      ["Payload Version not supported: " ++ toString (2 : Int)] ∧
    ("Unknown type: " ++ toString (200 : Nat)) ∈
      (decodeUplink ⟨1, encodeRecs [] ++ 200 :: [4, 1]⟩).data.errors := by
  obtain ⟨h1, h2, h3⟩ := errors_collected_in_data_object 2 [1, 2] [] 200 [4, 1]
  exact ⟨h1, h2 (by decide), h3 (by simp) (by decide)⟩

/-- C2 counterexample: with divisor 10 the signed width-2 bytes
`[0x0C, 0x01]` decode to 26.8, not 2.68 as the claim states; and the 4-byte
signed GPS sub-field does not follow the subtract-`2^32` rule: the
little-endian bytes of the two's-complement encoding of -1278 decode to
-1279/10000, not -1278/10000. -/
theorem signed_decode_claim_counterexample :
    (decodeValue [12, 1] 0 true 10 2).value = (134 / 5 : ℚ) ∧
    (decodeValue [12, 1] 0 true 10 2).value ≠ (268 / 100 : ℚ) ∧
    (decodeValue [2, 251, 255, 255] 0 true 10000 4).value = (-1279 / 10000 : ℚ) ∧
    (decodeValue [2, 251, 255, 255] 0 true 10000 4).value ≠ (-1278 / 10000 : ℚ) := by
  rw [decodeValue_width_two [12, 1] 0 true 10 12 1 rfl rfl (by decide) (by decide),
    decodeValue_width_four_signed [2, 251, 255, 255] 0 10000 2 251 255 255
      rfl rfl rfl rfl (by decide) (by decide) (by decide) (by decide)]
  norm_num

/-- C2 amended: for signed widths 1 and 2 the two's-complement rule holds
(subtract `2 ^ (8 * width)` when the top bit of the little-endian value is
set), so `[0xF4, 0xFF]` with divisor 10 decodes to -1.2 and `[0x0C, 0x01]`
with divisor 10 decodes to 26.8 (2.68 requires divisor 100); for the 4-byte
signed sub-fields of GPS records the value is composed with 32-bit
wrap-around and the adjustment subtracts `1 << 32 = 1`, yielding the
two's-complement value minus one when the top bit is set. -/
theorem signed_decode_amended (p : ℚ) (b0 b1 b2 b3 : Nat) (hb0 : b0 < 256)
    (hb1 : b1 < 256) (hb2 : b2 < 256) (hb3 : b3 < 256) :
    (decodeValue [b0] 0 true p 1).value =
      (if 128 ≤ b0 then (b0 : Int) - 2 ^ 8 else (b0 : Int)) / p ∧
    (decodeValue [b0, b1] 0 true p 2).value =
      (if 2 ^ 15 ≤ b0 + 256 * b1 then ((b0 + 256 * b1 : Nat) : Int) - 2 ^ 16
        else ((b0 + 256 * b1 : Nat) : Int)) / p ∧
    (decodeValue [244, 255] 0 true 10 2).value = (-6 / 5 : ℚ) ∧
    (decodeValue [12, 1] 0 true 10 2).value = (134 / 5 : ℚ) ∧
    (decodeValue [12, 1] 0 true 100 2).value = (67 / 25 : ℚ) ∧
    (decodeValue [b0, b1, b2, b3] 0 true p 4).value =
      (if 2 ^ 31 ≤ b0 + 256 * b1 + 65536 * b2 + 16777216 * b3 then
        ((b0 + 256 * b1 + 65536 * b2 + 16777216 * b3 : Nat) : Int) - 2 ^ 32 - 1
      else ((b0 + 256 * b1 + 65536 * b2 + 16777216 * b3 : Nat) : Int)) / p := by
  refine ⟨?_, ?_, ?_, ?_, ?_, ?_⟩
  · rw [decodeValue_width_one [b0] 0 true p b0 rfl hb0]
    norm_num
  · rw [decodeValue_width_two [b0, b1] 0 true p b0 b1 rfl rfl hb0 hb1]
    norm_num
  · rw [decodeValue_width_two [244, 255] 0 true 10 244 255 rfl rfl
      (by decide) (by decide)]
    norm_num
  · rw [decodeValue_width_two [12, 1] 0 true 10 12 1 rfl rfl
      (by decide) (by decide)]
    norm_num
  · rw [decodeValue_width_two [12, 1] 0 true 100 12 1 rfl rfl
      (by decide) (by decide)]
    norm_num
  · rw [decodeValue_width_four_signed [b0, b1, b2, b3] 0 p b0 b1 b2 b3
      rfl rfl rfl rfl hb0 hb1 hb2 hb3]
    norm_num
    by_cases hx : 2147483648 ≤ b0 + 256 * b1 + 65536 * b2 + 16777216 * b3
    · rw [if_pos hx, if_pos hx]
      ring
    · rw [if_neg hx, if_neg hx]

theorem signed_decode_amended_witness :
    ((decodeValue [2] 0 true 10 1).value =
      (if 128 ≤ 2 then ((2 : Nat) : Int) - 2 ^ 8 else ((2 : Nat) : Int)) / 10 ∧
    (decodeValue [2, 251] 0 true 10 2).value =
      (if 2 ^ 15 ≤ 2 + 256 * 251 then ((2 + 256 * 251 : Nat) : Int) - 2 ^ 16
        else ((2 + 256 * 251 : Nat) : Int)) / 10 ∧
    (decodeValue [244, 255] 0 true 10 2).value = (-6 / 5 : ℚ) ∧
    (decodeValue [12, 1] 0 true 10 2).value = (134 / 5 : ℚ) ∧
    (decodeValue [12, 1] 0 true 100 2).value = (67 / 25 : ℚ) ∧
    (decodeValue [2, 251, 255, 255] 0 true 10 4).value =
      (if 2 ^ 31 ≤ 2 + 256 * 251 + 65536 * 255 + 16777216 * 255 then
        ((2 + 256 * 251 + 65536 * 255 + 16777216 * 255 : Nat) : Int) - 2 ^ 32 - 1
      else ((2 + 256 * 251 + 65536 * 255 + 16777216 * 255 : Nat) : Int)) / 10) :=
  signed_decode_amended 10 2 251 255 255 (by decide) (by decide) (by decide)
    (by decide)

/-- C5 counterexample: a field decode that extends past the end of the
buffer does not fail — there is no bounds check and no error channel at
all; the missing high byte reads as zero, so `[0x2C]` decoded as a signed
width-2 field with divisor 10 silently yields `4.4` and the index still
advances past the end. -/
theorem truncated_field_counterexample :
    (decodeValue [44] 0 true 10 2).value = (22 / 5 : ℚ) ∧
    (decodeValue [44] 0 true 10 2).index = 2 := by
  rw [decodeValue_width_two [44] 0 true 10 44 0 rfl rfl (by decide) (by decide)]
  norm_num

/-- C5 amended: the field decoder performs no bounds check: a read past
the end of the buffer yields `undefined`, which the bitwise composition
treats as a zero byte, so a field extending past the buffer decodes exactly
as if the buffer were zero-padded to the field's end, with no error and the
index advanced past the end. -/
theorem decodeValue_zero_pads (bytes : List Nat) (i : Nat) (sg : Bool)
    (p : ℚ) (L : Nat) (h : bytes.length < i + L) :
    decodeValue bytes i sg p L =
      decodeValue (bytes ++ List.replicate (i + L - bytes.length) 0) i sg p L := by
  have hv := decodeValue_congr bytes
    (bytes ++ List.replicate (i + L - bytes.length) 0) i i sg p L ?_
  · calc decodeValue bytes i sg p L
        = ⟨(decodeValue bytes i sg p L).value, i + L⟩ := rfl
      _ = ⟨(decodeValue (bytes ++ List.replicate (i + L - bytes.length) 0)
            i sg p L).value, i + L⟩ := by rw [hv]
      _ = decodeValue (bytes ++ List.replicate (i + L - bytes.length) 0)
            i sg p L := rfl
  · intro k hk
    by_cases hik : i + k < bytes.length
    · exact (List.getD_append _ _ _ _ hik).symm
    · rw [List.getD_eq_default _ _ (by omega),
        List.getD_append_right _ _ _ _ (by omega)]
      rcases Nat.lt_or_ge (i + k - bytes.length)
        (List.replicate (i + L - bytes.length) (0 : Nat)).length with hlt | hge
      · rw [List.getD_eq_getElem _ _ hlt]
        simp
      · rw [List.getD_eq_default _ _ hge]

theorem decodeValue_zero_pads_witness :
    decodeValue [44] 0 true 10 2 =
      decodeValue ([44] ++ List.replicate (0 + 2 - ([44] : List Nat).length) 0)
        0 true 10 2 :=
  decodeValue_zero_pads [44] 0 true 10 2 (by decide)

lemma jsComposeStep_zero : jsComposeStep 0 0 = 0 := by decide

/-- When every byte the loop reads is out of range (hence `undefined`,
hence 0), the composed value is 0. -/
lemma composeLoop_all_oob (bytes : List Nat) (i : Nat)
    (h : bytes.length ≤ i) : ∀ L, composeLoop bytes i L 0 = 0 := by
  intro L
  induction L with
  | zero => rfl
  | succ L ih =>
    rw [composeLoop_succ, List.getD_eq_default _ _ (by omega), jsComposeStep_zero]
    exact ih

lemma jsBitSet_zero (k : Nat) : jsBitSet 0 k = false := by
  simp [jsBitSet, toUint32]

/-- A field read entirely past the end of the buffer decodes to 0. -/
lemma decodeValue_past_end (bytes : List Nat) (i : Nat) (sg : Bool) (p : ℚ)
    (L : Nat) (h : bytes.length ≤ i) : (decodeValue bytes i sg p L).value = 0 := by
  simp [decodeValue, composeLoop_all_oob bytes i h L, jsBitSet_zero]

/-- Effect of one loop iteration when only the type byte remains: the
channel reads as `undefined`, every data byte reads as zero, and a
`"<word>_undefined"` entry with zero value is stored. -/
lemma stepRecord_tail (pre : List Nat) (d : Desc) (hd : d ∈ catalog)
    (s : VState) (hi : s.i = pre.length) :
    stepRecord (pre ++ [d.tid]) s =
      ⟨pre.length + 2 + d.width,
        objInsert s.entries (d.label ++ "_undefined") (zeroVal d), s.errors⟩ := by
  obtain ⟨si, entries0, errors0⟩ := s
  simp only at hi ⊢
  subst hi
  fin_cases hd <;> dsimp only
  · have htype : (pre ++ [0]).getD pre.length 0 = 0 := by
      rw [List.getD_append_right _ _ _ _ le_rfl]
      simp
    have hchn : (pre ++ [0])[pre.length + 1]? = none := by
      rw [List.getElem?_eq_none]
      simp
    have hval : (decodeValue (pre ++ [0]) (pre.length + 2) false 1 1).value = 0 :=
      decodeValue_past_end _ _ _ _ _ (by simp)
    simp only [stepRecord, htype, hchn,
      show ((0 : Nat) = SensorTypes.DIG_IN.type) = True by simp [SensorTypes.DIG_IN],
      if_false, if_true,
      show SensorTypes.DIG_IN.signed = false from rfl,
      show SensorTypes.DIG_IN.precision = 1 from rfl,
      show SensorTypes.DIG_IN.bytes = 1 from rfl,
      show (1 / 3 : Nat) = 0 from rfl,
      chanStr, hval, decodeValue_index, VState.mk.injEq,
      show ("digital_" : String) ++ "undefined" = "digital_undefined" from rfl,
      true_and, and_true]
    simp [zeroVal,
      show ("digital" : String) ++ "_undefined" = "digital_undefined" from rfl]
  · have htype : (pre ++ [1]).getD pre.length 0 = 1 := by
      rw [List.getD_append_right _ _ _ _ le_rfl]
      simp
    have hchn : (pre ++ [1])[pre.length + 1]? = none := by
      rw [List.getElem?_eq_none]
      simp
    have hval : (decodeValue (pre ++ [1]) (pre.length + 2) false 1 1).value = 0 :=
      decodeValue_past_end _ _ _ _ _ (by simp)
    simp only [stepRecord, htype, hchn,
      show ((1 : Nat) = SensorTypes.DIG_IN.type) = False by simp [SensorTypes.DIG_IN],
      show ((1 : Nat) = SensorTypes.DIG_OUT.type) = True by simp [SensorTypes.DIG_OUT],
      if_false, if_true,
      show SensorTypes.DIG_OUT.signed = false from rfl,
      show SensorTypes.DIG_OUT.precision = 1 from rfl,
      show SensorTypes.DIG_OUT.bytes = 1 from rfl,
      show (1 / 3 : Nat) = 0 from rfl,
      chanStr, hval, decodeValue_index, VState.mk.injEq,
      show ("digital_" : String) ++ "undefined" = "digital_undefined" from rfl,
      true_and, and_true]
    simp [zeroVal,
      show ("digital" : String) ++ "_undefined" = "digital_undefined" from rfl]
  · have htype : (pre ++ [2]).getD pre.length 0 = 2 := by
      rw [List.getD_append_right _ _ _ _ le_rfl]
      simp
    have hchn : (pre ++ [2])[pre.length + 1]? = none := by
      rw [List.getElem?_eq_none]
      simp
    have hval : (decodeValue (pre ++ [2]) (pre.length + 2) true 100 2).value = 0 :=
      decodeValue_past_end _ _ _ _ _ (by simp)
    simp only [stepRecord, htype, hchn,
      show ((2 : Nat) = SensorTypes.DIG_IN.type) = False by simp [SensorTypes.DIG_IN],
      show ((2 : Nat) = SensorTypes.DIG_OUT.type) = False by simp [SensorTypes.DIG_OUT],
      show ((2 : Nat) = SensorTypes.ANL_IN.type) = True by simp [SensorTypes.ANL_IN],
      if_false, if_true,
      show SensorTypes.ANL_IN.signed = true from rfl,
      show SensorTypes.ANL_IN.precision = 100 from rfl,
      show SensorTypes.ANL_IN.bytes = 2 from rfl,
      show (2 / 3 : Nat) = 0 from rfl,
      chanStr, hval, decodeValue_index, VState.mk.injEq,
      show ("analog_" : String) ++ "undefined" = "analog_undefined" from rfl,
      true_and, and_true]
    simp [zeroVal,
      show ("analog" : String) ++ "_undefined" = "analog_undefined" from rfl]
  · have htype : (pre ++ [3]).getD pre.length 0 = 3 := by
      rw [List.getD_append_right _ _ _ _ le_rfl]
      simp
    have hchn : (pre ++ [3])[pre.length + 1]? = none := by
      rw [List.getElem?_eq_none]
      simp
    have hval : (decodeValue (pre ++ [3]) (pre.length + 2) true 100 2).value = 0 :=
      decodeValue_past_end _ _ _ _ _ (by simp)
    simp only [stepRecord, htype, hchn,
      show ((3 : Nat) = SensorTypes.DIG_IN.type) = False by simp [SensorTypes.DIG_IN],
      show ((3 : Nat) = SensorTypes.DIG_OUT.type) = False by simp [SensorTypes.DIG_OUT],
      show ((3 : Nat) = SensorTypes.ANL_IN.type) = False by simp [SensorTypes.ANL_IN],
      show ((3 : Nat) = SensorTypes.ANL_OUT.type) = True by simp [SensorTypes.ANL_OUT],
      if_false, if_true,
      show SensorTypes.ANL_OUT.signed = true from rfl,
      show SensorTypes.ANL_OUT.precision = 100 from rfl,
      show SensorTypes.ANL_OUT.bytes = 2 from rfl,
      show (2 / 3 : Nat) = 0 from rfl,
      chanStr, hval, decodeValue_index, VState.mk.injEq,
      show ("analog_" : String) ++ "undefined" = "analog_undefined" from rfl,
      true_and, and_true]
    simp [zeroVal,
      show ("analog" : String) ++ "_undefined" = "analog_undefined" from rfl]
  · have htype : (pre ++ [101]).getD pre.length 0 = 101 := by
      rw [List.getD_append_right _ _ _ _ le_rfl]
      simp
    have hchn : (pre ++ [101])[pre.length + 1]? = none := by
      rw [List.getElem?_eq_none]
      simp
    have hval : (decodeValue (pre ++ [101]) (pre.length + 2) false 1 2).value = 0 :=
      decodeValue_past_end _ _ _ _ _ (by simp)
    simp only [stepRecord, htype, hchn,
      show ((101 : Nat) = SensorTypes.DIG_IN.type) = False by simp [SensorTypes.DIG_IN],
      show ((101 : Nat) = SensorTypes.DIG_OUT.type) = False by simp [SensorTypes.DIG_OUT],
      show ((101 : Nat) = SensorTypes.ANL_IN.type) = False by simp [SensorTypes.ANL_IN],
      show ((101 : Nat) = SensorTypes.ANL_OUT.type) = False by simp [SensorTypes.ANL_OUT],
      show ((101 : Nat) = SensorTypes.ILLUM_SENS.type) = True by simp [SensorTypes.ILLUM_SENS],
      if_false, if_true,
      show SensorTypes.ILLUM_SENS.signed = false from rfl,
      show SensorTypes.ILLUM_SENS.precision = 1 from rfl,
      show SensorTypes.ILLUM_SENS.bytes = 2 from rfl,
      show (2 / 3 : Nat) = 0 from rfl,
      chanStr, hval, decodeValue_index, VState.mk.injEq,
      show ("illumination_" : String) ++ "undefined" = "illumination_undefined" from rfl,
      true_and, and_true]
    simp [zeroVal,
      show ("illumination" : String) ++ "_undefined" = "illumination_undefined" from rfl]
  · have htype : (pre ++ [102]).getD pre.length 0 = 102 := by
      rw [List.getD_append_right _ _ _ _ le_rfl]
      simp
    have hchn : (pre ++ [102])[pre.length + 1]? = none := by
      rw [List.getElem?_eq_none]
      simp
    have hval : (decodeValue (pre ++ [102]) (pre.length + 2) false 1 1).value = 0 :=
      decodeValue_past_end _ _ _ _ _ (by simp)
    simp only [stepRecord, htype, hchn,
      show ((102 : Nat) = SensorTypes.DIG_IN.type) = False by simp [SensorTypes.DIG_IN],
      show ((102 : Nat) = SensorTypes.DIG_OUT.type) = False by simp [SensorTypes.DIG_OUT],
      show ((102 : Nat) = SensorTypes.ANL_IN.type) = False by simp [SensorTypes.ANL_IN],
      show ((102 : Nat) = SensorTypes.ANL_OUT.type) = False by simp [SensorTypes.ANL_OUT],
      show ((102 : Nat) = SensorTypes.ILLUM_SENS.type) = False by simp [SensorTypes.ILLUM_SENS],
      show ((102 : Nat) = SensorTypes.PRSNC_SENS.type) = True by simp [SensorTypes.PRSNC_SENS],
      if_false, if_true,
      show SensorTypes.PRSNC_SENS.signed = false from rfl,
      show SensorTypes.PRSNC_SENS.precision = 1 from rfl,
      show SensorTypes.PRSNC_SENS.bytes = 1 from rfl,
      show (1 / 3 : Nat) = 0 from rfl,
      chanStr, hval, decodeValue_index, VState.mk.injEq,
      show ("presence_" : String) ++ "undefined" = "presence_undefined" from rfl,
      true_and, and_true]
    simp [zeroVal,
      show ("presence" : String) ++ "_undefined" = "presence_undefined" from rfl]
  · have htype : (pre ++ [103]).getD pre.length 0 = 103 := by
      rw [List.getD_append_right _ _ _ _ le_rfl]
      simp
    have hchn : (pre ++ [103])[pre.length + 1]? = none := by
      rw [List.getElem?_eq_none]
      simp
    have hval : (decodeValue (pre ++ [103]) (pre.length + 2) true 10 2).value = 0 :=
      decodeValue_past_end _ _ _ _ _ (by simp)
    simp only [stepRecord, htype, hchn,
      show ((103 : Nat) = SensorTypes.DIG_IN.type) = False by simp [SensorTypes.DIG_IN],
      show ((103 : Nat) = SensorTypes.DIG_OUT.type) = False by simp [SensorTypes.DIG_OUT],
      show ((103 : Nat) = SensorTypes.ANL_IN.type) = False by simp [SensorTypes.ANL_IN],
      show ((103 : Nat) = SensorTypes.ANL_OUT.type) = False by simp [SensorTypes.ANL_OUT],
      show ((103 : Nat) = SensorTypes.ILLUM_SENS.type) = False by simp [SensorTypes.ILLUM_SENS],
      show ((103 : Nat) = SensorTypes.PRSNC_SENS.type) = False by simp [SensorTypes.PRSNC_SENS],
      show ((103 : Nat) = SensorTypes.TEMP_SENS.type) = True by simp [SensorTypes.TEMP_SENS],
      if_false, if_true,
      show SensorTypes.TEMP_SENS.signed = true from rfl,
      show SensorTypes.TEMP_SENS.precision = 10 from rfl,
      show SensorTypes.TEMP_SENS.bytes = 2 from rfl,
      show (2 / 3 : Nat) = 0 from rfl,
      chanStr, hval, decodeValue_index, VState.mk.injEq,
      show ("temperature_" : String) ++ "undefined" = "temperature_undefined" from rfl,
      true_and, and_true]
    simp [zeroVal,
      show ("temperature" : String) ++ "_undefined" = "temperature_undefined" from rfl]
  · have htype : (pre ++ [104]).getD pre.length 0 = 104 := by
      rw [List.getD_append_right _ _ _ _ le_rfl]
      simp
    have hchn : (pre ++ [104])[pre.length + 1]? = none := by
      rw [List.getElem?_eq_none]
      simp
    have hval : (decodeValue (pre ++ [104]) (pre.length + 2) false 10 2).value = 0 :=
      decodeValue_past_end _ _ _ _ _ (by simp)
    simp only [stepRecord, htype, hchn,
      show ((104 : Nat) = SensorTypes.DIG_IN.type) = False by simp [SensorTypes.DIG_IN],
      show ((104 : Nat) = SensorTypes.DIG_OUT.type) = False by simp [SensorTypes.DIG_OUT],
      show ((104 : Nat) = SensorTypes.ANL_IN.type) = False by simp [SensorTypes.ANL_IN],
      show ((104 : Nat) = SensorTypes.ANL_OUT.type) = False by simp [SensorTypes.ANL_OUT],
      show ((104 : Nat) = SensorTypes.ILLUM_SENS.type) = False by simp [SensorTypes.ILLUM_SENS],
      show ((104 : Nat) = SensorTypes.PRSNC_SENS.type) = False by simp [SensorTypes.PRSNC_SENS],
      show ((104 : Nat) = SensorTypes.TEMP_SENS.type) = False by simp [SensorTypes.TEMP_SENS],
      show ((104 : Nat) = SensorTypes.HUM_SENS.type) = True by simp [SensorTypes.HUM_SENS],
      if_false, if_true,
      show SensorTypes.HUM_SENS.signed = false from rfl,
      show SensorTypes.HUM_SENS.precision = 10 from rfl,
      show SensorTypes.HUM_SENS.bytes = 2 from rfl,
      show (2 / 3 : Nat) = 0 from rfl,
      chanStr, hval, decodeValue_index, VState.mk.injEq,
      show ("humidity_" : String) ++ "undefined" = "humidity_undefined" from rfl,
      true_and, and_true]
    simp [zeroVal,
      show ("humidity" : String) ++ "_undefined" = "humidity_undefined" from rfl]
  · have htype : (pre ++ [113]).getD pre.length 0 = 113 := by
      rw [List.getD_append_right _ _ _ _ le_rfl]
      simp
    have hchn : (pre ++ [113])[pre.length + 1]? = none := by
      rw [List.getElem?_eq_none]
      simp
    have hvalX : (decodeValue (pre ++ [113]) (pre.length + 2) true 1000 2).value = 0 :=
      decodeValue_past_end _ _ _ _ _ (by simp)
    have hvalY : (decodeValue (pre ++ [113]) (pre.length + 2 + 2) true 1000 2).value = 0 :=
      decodeValue_past_end _ _ _ _ _ (by simp)
    have hvalZ : (decodeValue (pre ++ [113]) (pre.length + 2 + 2 + 2) true 1000 2).value = 0 :=
      decodeValue_past_end _ _ _ _ _ (by simp)
    simp only [stepRecord, htype, hchn,
      show ((113 : Nat) = SensorTypes.DIG_IN.type) = False by simp [SensorTypes.DIG_IN],
      show ((113 : Nat) = SensorTypes.DIG_OUT.type) = False by simp [SensorTypes.DIG_OUT],
      show ((113 : Nat) = SensorTypes.ANL_IN.type) = False by simp [SensorTypes.ANL_IN],
      show ((113 : Nat) = SensorTypes.ANL_OUT.type) = False by simp [SensorTypes.ANL_OUT],
      show ((113 : Nat) = SensorTypes.ILLUM_SENS.type) = False by simp [SensorTypes.ILLUM_SENS],
      show ((113 : Nat) = SensorTypes.PRSNC_SENS.type) = False by simp [SensorTypes.PRSNC_SENS],
      show ((113 : Nat) = SensorTypes.TEMP_SENS.type) = False by simp [SensorTypes.TEMP_SENS],
      show ((113 : Nat) = SensorTypes.HUM_SENS.type) = False by simp [SensorTypes.HUM_SENS],
      show ((113 : Nat) = SensorTypes.ACCRM_SENS.type) = True by simp [SensorTypes.ACCRM_SENS],
      if_false, if_true,
      show SensorTypes.ACCRM_SENS.signed = true from rfl,
      show SensorTypes.ACCRM_SENS.precision = 1000 from rfl,
      show SensorTypes.ACCRM_SENS.bytes = 6 from rfl,
      show (6 / 3 : Nat) = 2 from rfl,
      chanStr, hvalX, hvalY, hvalZ, decodeValue_index, VState.mk.injEq,
      show ("accelerometer_" : String) ++ "undefined" = "accelerometer_undefined" from rfl,
      true_and, and_true]
    simp [zeroVal,
      show ("accelerometer" : String) ++ "_undefined" = "accelerometer_undefined" from rfl]
  · have htype : (pre ++ [115]).getD pre.length 0 = 115 := by
      rw [List.getD_append_right _ _ _ _ le_rfl]
      simp
    have hchn : (pre ++ [115])[pre.length + 1]? = none := by
      rw [List.getElem?_eq_none]
      simp
    have hval : (decodeValue (pre ++ [115]) (pre.length + 2) false 10 2).value = 0 :=
      decodeValue_past_end _ _ _ _ _ (by simp)
    simp only [stepRecord, htype, hchn,
      show ((115 : Nat) = SensorTypes.DIG_IN.type) = False by simp [SensorTypes.DIG_IN],
      show ((115 : Nat) = SensorTypes.DIG_OUT.type) = False by simp [SensorTypes.DIG_OUT],
      show ((115 : Nat) = SensorTypes.ANL_IN.type) = False by simp [SensorTypes.ANL_IN],
      show ((115 : Nat) = SensorTypes.ANL_OUT.type) = False by simp [SensorTypes.ANL_OUT],
      show ((115 : Nat) = SensorTypes.ILLUM_SENS.type) = False by simp [SensorTypes.ILLUM_SENS],
      show ((115 : Nat) = SensorTypes.PRSNC_SENS.type) = False by simp [SensorTypes.PRSNC_SENS],
      show ((115 : Nat) = SensorTypes.TEMP_SENS.type) = False by simp [SensorTypes.TEMP_SENS],
      show ((115 : Nat) = SensorTypes.HUM_SENS.type) = False by simp [SensorTypes.HUM_SENS],
      show ((115 : Nat) = SensorTypes.ACCRM_SENS.type) = False by simp [SensorTypes.ACCRM_SENS],
      show ((115 : Nat) = SensorTypes.BARO_SENS.type) = True by simp [SensorTypes.BARO_SENS],
      if_false, if_true,
      show SensorTypes.BARO_SENS.signed = false from rfl,
      show SensorTypes.BARO_SENS.precision = 10 from rfl,
      show SensorTypes.BARO_SENS.bytes = 2 from rfl,
      show (2 / 3 : Nat) = 0 from rfl,
      chanStr, hval, decodeValue_index, VState.mk.injEq,
      show ("barometer_" : String) ++ "undefined" = "barometer_undefined" from rfl,
      true_and, and_true]
    simp [zeroVal,
      show ("barometer" : String) ++ "_undefined" = "barometer_undefined" from rfl]
  · have htype : (pre ++ [134]).getD pre.length 0 = 134 := by
      rw [List.getD_append_right _ _ _ _ le_rfl]
      simp
    have hchn : (pre ++ [134])[pre.length + 1]? = none := by
      rw [List.getElem?_eq_none]
      simp
    have hvalX : (decodeValue (pre ++ [134]) (pre.length + 2) true 100 2).value = 0 :=
      decodeValue_past_end _ _ _ _ _ (by simp)
    have hvalY : (decodeValue (pre ++ [134]) (pre.length + 2 + 2) true 100 2).value = 0 :=
      decodeValue_past_end _ _ _ _ _ (by simp)
    have hvalZ : (decodeValue (pre ++ [134]) (pre.length + 2 + 2 + 2) true 100 2).value = 0 :=
      decodeValue_past_end _ _ _ _ _ (by simp)
    simp only [stepRecord, htype, hchn,
      show ((134 : Nat) = SensorTypes.DIG_IN.type) = False by simp [SensorTypes.DIG_IN],
      show ((134 : Nat) = SensorTypes.DIG_OUT.type) = False by simp [SensorTypes.DIG_OUT],
      show ((134 : Nat) = SensorTypes.ANL_IN.type) = False by simp [SensorTypes.ANL_IN],
      show ((134 : Nat) = SensorTypes.ANL_OUT.type) = False by simp [SensorTypes.ANL_OUT],
      show ((134 : Nat) = SensorTypes.ILLUM_SENS.type) = False by simp [SensorTypes.ILLUM_SENS],
      show ((134 : Nat) = SensorTypes.PRSNC_SENS.type) = False by simp [SensorTypes.PRSNC_SENS],
      show ((134 : Nat) = SensorTypes.TEMP_SENS.type) = False by simp [SensorTypes.TEMP_SENS],
      show ((134 : Nat) = SensorTypes.HUM_SENS.type) = False by simp [SensorTypes.HUM_SENS],
      show ((134 : Nat) = SensorTypes.ACCRM_SENS.type) = False by simp [SensorTypes.ACCRM_SENS],
      show ((134 : Nat) = SensorTypes.BARO_SENS.type) = False by simp [SensorTypes.BARO_SENS],
      show ((134 : Nat) = SensorTypes.GYRO_SENS.type) = True by simp [SensorTypes.GYRO_SENS],
      if_false, if_true,
      show SensorTypes.GYRO_SENS.signed = true from rfl,
      show SensorTypes.GYRO_SENS.precision = 100 from rfl,
      show SensorTypes.GYRO_SENS.bytes = 6 from rfl,
      show (6 / 3 : Nat) = 2 from rfl,
      chanStr, hvalX, hvalY, hvalZ, decodeValue_index, VState.mk.injEq,
      show ("gyroscope_" : String) ++ "undefined" = "gyroscope_undefined" from rfl,
      true_and, and_true]
    simp [zeroVal,
      show ("gyroscope" : String) ++ "_undefined" = "gyroscope_undefined" from rfl]
  · have htype : (pre ++ [136]).getD pre.length 0 = 136 := by
      rw [List.getD_append_right _ _ _ _ le_rfl]
      simp
    have hchn : (pre ++ [136])[pre.length + 1]? = none := by
      rw [List.getElem?_eq_none]
      simp
    have hvalX : (decodeValue (pre ++ [136]) (pre.length + 2) true 10000 4).value = 0 :=
      decodeValue_past_end _ _ _ _ _ (by simp)
    have hvalY : (decodeValue (pre ++ [136]) (pre.length + 2 + 4) true 10000 4).value = 0 :=
      decodeValue_past_end _ _ _ _ _ (by simp)
    have hvalZ : (decodeValue (pre ++ [136]) (pre.length + 2 + 4 + 4) true (10000 / 100 : Rat) 4).value = 0 :=
      decodeValue_past_end _ _ _ _ _ (by simp)
    simp only [stepRecord, htype, hchn,
      show ((136 : Nat) = SensorTypes.DIG_IN.type) = False by simp [SensorTypes.DIG_IN],
      show ((136 : Nat) = SensorTypes.DIG_OUT.type) = False by simp [SensorTypes.DIG_OUT],
      show ((136 : Nat) = SensorTypes.ANL_IN.type) = False by simp [SensorTypes.ANL_IN],
      show ((136 : Nat) = SensorTypes.ANL_OUT.type) = False by simp [SensorTypes.ANL_OUT],
      show ((136 : Nat) = SensorTypes.ILLUM_SENS.type) = False by simp [SensorTypes.ILLUM_SENS],
      show ((136 : Nat) = SensorTypes.PRSNC_SENS.type) = False by simp [SensorTypes.PRSNC_SENS],
      show ((136 : Nat) = SensorTypes.TEMP_SENS.type) = False by simp [SensorTypes.TEMP_SENS],
      show ((136 : Nat) = SensorTypes.HUM_SENS.type) = False by simp [SensorTypes.HUM_SENS],
      show ((136 : Nat) = SensorTypes.ACCRM_SENS.type) = False by simp [SensorTypes.ACCRM_SENS],
      show ((136 : Nat) = SensorTypes.BARO_SENS.type) = False by simp [SensorTypes.BARO_SENS],
      show ((136 : Nat) = SensorTypes.GYRO_SENS.type) = False by simp [SensorTypes.GYRO_SENS],
      show ((136 : Nat) = SensorTypes.GPS_LOC.type) = True by simp [SensorTypes.GPS_LOC],
      if_false, if_true,
      show SensorTypes.GPS_LOC.signed = true from rfl,
      show SensorTypes.GPS_LOC.precision = 10000 from rfl,
      show SensorTypes.GPS_LOC.bytes = 12 from rfl,
      show (12 / 3 : Nat) = 4 from rfl,
      chanStr, hvalX, hvalY, hvalZ, decodeValue_index, VState.mk.injEq,
      show ("gps_" : String) ++ "undefined" = "gps_undefined" from rfl,
      true_and, and_true]
    simp [zeroVal,
      show ("gps" : String) ++ "_undefined" = "gps_undefined" from rfl]

/-- Full behavior of the decoder when a single known type byte trails the
records: a `"<word>_undefined"` entry with zero value is produced. -/
lemma decodeUplink_tail_byte (rs : List Record) (d : Desc)
    (hwf : ∀ r ∈ rs, r.wf) (hd : d ∈ catalog) :
    decodeUplink ⟨1, encodeRecs rs ++ [d.tid]⟩ =
      ⟨1, ⟨objInsert (insertRecs rs []) (d.label ++ "_undefined") (zeroVal d),
        []⟩, [], []⟩ := by
  have hb : encodeRecs rs ++ [d.tid] = [] ++ encodeRecs rs ++ [d.tid] := by simp
  simp only [decodeUplink, processPayloadVersion_ONE, if_pos]
  rw [hb, walk_encodeRecs rs [] [d.tid] ⟨0, [], []⟩ _ hwf rfl (by simp)]
  have hlt : (⟨([] : List Nat).length + (encodeRecs rs).length,
      insertRecs rs [], []⟩ : VState).i <
      ([] ++ encodeRecs rs ++ [d.tid]).length := by
    simp
  rw [walk_step_of _ _ _ hlt (by simp)]
  have hstep : stepRecord ([] ++ encodeRecs rs ++ [d.tid])
      ⟨([] : List Nat).length + (encodeRecs rs).length, insertRecs rs [], []⟩ =
      ⟨(encodeRecs rs).length + 2 + d.width,
        objInsert (insertRecs rs []) (d.label ++ "_undefined") (zeroVal d),
        []⟩ := by
    have h := stepRecord_tail (encodeRecs rs) d hd
      ⟨([] : List Nat).length + (encodeRecs rs).length, insertRecs rs [], []⟩
      (by simp)
    simpa using h
  rw [hstep]
  rw [walk_stop _ _ _ (by simp; omega)]

/-- C7 counterexample: a buffer with exactly one byte remaining at a record
boundary does not fail with a `TruncatedHeader` error; the walker reads the
type from it and an `undefined` channel, and silently produces the mapping
entry `"temperature_undefined"` with value 0, with no error recorded. -/
theorem truncated_header_counterexample :
    decodeUplink ⟨1, [103]⟩ =
      ⟨1, ⟨[("temperature_undefined", .num 0)], []⟩, [], []⟩ := by
  have h := decodeUplink_tail_byte []
    ⟨103, "temperature", true, 10, 2, false⟩ (by simp) (by decide)
  simp only [encodeRecs, List.nil_append] at h
  rw [show (⟨1, [103]⟩ : UplinkInput) =
    ⟨1, [(⟨103, "temperature", true, 10, 2, false⟩ : Desc).tid]⟩ from rfl, h]
  simp [insertRecs, objInsert, zeroVal]

/-- C7 amended: when a record boundary is reached with exactly one byte
remaining, no `TruncatedHeader` error exists: for a registered type id the
walker reads an `undefined` channel and stores a `"<word>_undefined"` entry
whose value decodes from zero bytes (0, or a zero triple), and for an
unregistered id it records the unknown-type error; either way decoding ends
silently rather than failing. -/
theorem one_byte_tail_amended (rs : List Record) (d : Desc) (t : Nat)
    (hwf : ∀ r ∈ rs, r.wf) (hd : d ∈ catalog)
    (hunk : ∀ e ∈ catalog, t ≠ e.tid) :
    decodeUplink ⟨1, encodeRecs rs ++ [d.tid]⟩ =
      ⟨1, ⟨objInsert (insertRecs rs []) (d.label ++ "_undefined") (zeroVal d),
        []⟩, [], []⟩ ∧
    decodeUplink ⟨1, encodeRecs rs ++ [t]⟩ =
      ⟨1, ⟨insertRecs rs [], ["Unknown type: " ++ toString t]⟩, [], []⟩ :=
  ⟨decodeUplink_tail_byte rs d hwf hd, decodeUplink_unknown rs t [] hwf hunk⟩

theorem one_byte_tail_amended_witness :
    (decodeUplink ⟨1, encodeRecs [] ++
        [(⟨103, "temperature", true, 10, 2, false⟩ : Desc).tid]⟩ =
      ⟨1, ⟨objInsert (insertRecs [] [])
        ((⟨103, "temperature", true, 10, 2, false⟩ : Desc).label ++ "_undefined")
        (zeroVal ⟨103, "temperature", true, 10, 2, false⟩), []⟩, [], []⟩ ∧
    decodeUplink ⟨1, encodeRecs [] ++ [200]⟩ =
      ⟨1, ⟨insertRecs [] [], ["Unknown type: " ++ toString (200 : Nat)]⟩,
        [], []⟩) :=
  one_byte_tail_amended [] ⟨103, "temperature", true, 10, 2, false⟩ 200
    (by simp) (by decide) (by decide)

end TTNDecoder
